import Mathlib

/-!
# Breakout: a shallow embedding of `breakoutGame.cpp`

The embedding follows the single source file of the repository.

* `double` quantities (`ballX`, `ballY`, `paddleX`, `ballSpeed`, `paddleSpeed`, the elapsed
  time `deltaTime`) are exact rationals.  Every concrete input used below is a dyadic
  rational of small size, on which IEEE arithmetic is exact.
* `ballDir` is an `XPoint`, whose fields are C `short`s: they are integers, and every
  assignment to them goes through `toShort` (reduction into the 16-bit signed range).
* `int` quantities (`score`, `bricksRemaining`, `paddleLength`) are unbounded integers; signed
  overflow of an `int` is undefined in C++ and is not modelled.
* The global flags and the locals of `main` that survive a loop iteration form `State`; the
  three globals fixed by argument processing form `Config`.
* One iteration of the `while (true)` loop is: at most one event (`keyPress` or `keyRelease`),
  then `simulate` (lines 410-532), then drawing, which does not change the state.
-/

namespace Breakout

/-! ## Constants (lines 34-83) -/

def SCREEN_WIDTH : Int := 1300
def SCREEN_HEIGHT : Int := 800

abbrev NUM_OF_ROWS : Nat := 6
abbrev NUM_OF_COLS : Nat := 13
def BRICK_WIDTH : Int := 100
def BRICK_HEIGHT : Int := 25

def BALL_DIAMETER : ℚ := 25
def INITIAL_BALL_X : ℚ := 50
def INITIAL_BALL_Y : ℚ := 50

/-- The static initialiser of the global `paddleLength` (line 56). -/
def paddleLengthInit : Int := 50
def PADDLE_HEIGHT : Int := 20
/-- Line 58: integer arithmetic on the initialiser of `paddleLength`, then stored as a double. -/
def INITIAL_PADDLE_X : ℚ := ((SCREEN_WIDTH / 2 - paddleLengthInit / 2 : Int) : ℚ)
def INITIAL_PADDLE_Y : ℚ := ((SCREEN_HEIGHT - 100 : Int) : ℚ)

abbrev speedArray : List ℚ := [1, 2, 3, 4, 5, 6, 7, 8, 9, 10]
abbrev paddleLengthValues : List Int := [70, 80, 90, 100, 110]

def destroyBrickPoints : Int := 50
def paddleBouncePoints : Int := 20

/-! ## Argument processing (lines 123-128 and 180-203) -/

/-- The three globals that argument processing may assign and nothing changes afterwards. -/
structure Config where
  ballSpeed : ℚ
  paddleSpeed : ℚ
  paddleLength : Int
deriving DecidableEq, Repr

/-- The globals as their initialisers leave them (lines 56, 77, 78). -/
def globalsInit : Config :=
  { ballSpeed := speedArray[5], paddleSpeed := speedArray[5], paddleLength := paddleLengthInit }

/-- What argument processing ends in. -/
inductive ArgResult where
  /-- Control falls through to `XOpenDisplay` with these globals. -/
  | proceed (cfg : Config)
  /-- The process wrote `msg` to `std::cerr` and called `exit(status)`; no display was opened. -/
  | exited (msg : String) (status : Int)
  /-- The call `std::stoi` threw (no digits, or a value outside `int`); nothing catches it. -/
  | stoiThrew
  /-- An array was read outside its bounds, which C++ leaves undefined; no check precedes it. -/
  | outOfBoundsRead
deriving DecidableEq, Repr

/-- Lines 123-128: `error` writes the message and calls `exit(0)`. -/
def error (str : String) : ArgResult := ArgResult.exited str 0

/-- The `isspace` characters of the C locale. -/
def isSpaceChar (c : Char) : Bool :=
  c.toNat = 32 || (9 ≤ c.toNat && c.toNat ≤ 13)

/-- The value of a run of decimal digits. -/
def digitsValue (ds : List Char) : Int :=
  ds.foldl (fun acc d => acc * 10 + ((d.toNat : Int) - 48)) 0

/-- The library call `std::stoi(str)` in base 10: leading white space, an optional sign, then
the longest run of digits; `none` when it throws. -/
def stoi (str : String) : Option Int :=
  let cs := str.toList.dropWhile isSpaceChar
  let signed : Bool × List Char :=
    match cs with
    | '-' :: rest => (true, rest)
    | '+' :: rest => (false, rest)
    | rest => (false, rest)
  let ds := signed.2.takeWhile Char.isDigit
  if ds.isEmpty then none
  else
    let v := if signed.1 then - digitsValue ds else digitsValue ds
    if -2147483648 ≤ v ∧ v ≤ 2147483647 then some v else none

/-- Reading `arr[k]` for a C array `arr`: `none` outside its bounds. -/
def readAt {α : Type} (arr : List α) (k : Int) : Option α :=
  if 0 ≤ k then arr.get? k.toNat else none

/-- The branch `argc == 3` (lines 189-193). -/
def twoArgs (g : Config) (a1 a2 : String) : ArgResult :=
  match stoi a1 with
  | none => ArgResult.stoiThrew
  | some k1 =>
    match readAt speedArray k1 with
    | none => ArgResult.outOfBoundsRead
    | some v1 =>
      match stoi a2 with
      | none => ArgResult.stoiThrew
      | some k2 =>
        match readAt speedArray k2 with
        | none => ArgResult.outOfBoundsRead
        | some v2 => ArgResult.proceed { g with ballSpeed := 25 * v1, paddleSpeed := 25 * v2 }

/-- The branch `argc == 4` (lines 194-199). -/
def threeArgs (g : Config) (a1 a2 a3 : String) : ArgResult :=
  match twoArgs g a1 a2 with
  | ArgResult.proceed g2 =>
    match stoi a3 with
    | none => ArgResult.stoiThrew
    | some k3 =>
      match readAt paddleLengthValues k3 with
      | none => ArgResult.outOfBoundsRead
      | some len => ArgResult.proceed { g2 with paddleLength := len }
  | r => r

/-- Lines 183-203 of `main`; `argv` includes the program name, so `argc = argv.length`. -/
def processArgs (argv : List String) : ArgResult :=
  match argv with
  | [_] =>
    ArgResult.proceed
      { globalsInit with
        ballSpeed := 25 * speedArray[5], paddleSpeed := 25 * speedArray[7], paddleLength := 80 }
  | [_, a1, a2] => twoArgs globalsInit a1 a2
  | [_, a1, a2, a3] => threeArgs globalsInit a1 a2 a3
  | _ => error "Invalid inputs"

/-! ## The game state -/

inductive Color where
  | DEAD | RED | GREEN | BLUE | YELLOW | PURPLE | ORANGE
deriving DecidableEq, Repr

/-- The array `brickArray[NUM_OF_ROWS][NUM_OF_COLS]`. -/
abbrev Grid : Type := Fin NUM_OF_ROWS → Fin NUM_OF_COLS → Color

/-- The assignment `brickArray[row][col] = v`. -/
def Grid.set (g : Grid) (row : Fin NUM_OF_ROWS) (col : Fin NUM_OF_COLS) (v : Color) : Grid :=
  fun r c => if r = row ∧ c = col then v else g r c

/-- The mutable globals, and the locals of `main` that live across loop iterations. -/
structure State where
  bricksRemaining : Int
  score : Int
  showSplash : Bool
  alive : Bool
  gameWon : Bool
  gamePaused : Bool
  paddleLeft : Bool
  paddleRight : Bool
  brickArray : Grid
  ballX : ℚ
  ballY : ℚ
  /-- The field `ballDir.x`, a C `short`. -/
  ballDirX : Int
  /-- The field `ballDir.y`, a C `short`. -/
  ballDirY : Int
  paddleX : ℚ

/-- Conversion of an `int` to `short`: reduction into the range -32768 .. 32767. -/
def toShort (z : Int) : Int := (z + 32768) % 65536 - 32768

/-- Conversion of a `double` to `short`: the fractional part is discarded (toward zero). -/
def doubleToShort (q : ℚ) : Int := toShort (if 0 ≤ q then ⌊q⌋ else ⌈q⌉)

/-- The colour that `setBrickArray` gives to a row (lines 100-105). -/
def rowColor (row : Fin NUM_OF_ROWS) : Color :=
  match row.val with
  | 0 => Color.RED
  | 1 => Color.GREEN
  | 2 => Color.BLUE
  | 3 => Color.YELLOW
  | 4 => Color.PURPLE
  | _ => Color.ORANGE

/-- The body of the loop of `setBrickArray` for one column `i` (lines 100-106). -/
def setBrickColumn (s : State) (i : Fin NUM_OF_COLS) : State :=
  { s with
    brickArray :=
      (((((s.brickArray.set 0 i Color.RED).set 1 i Color.GREEN).set 2 i Color.BLUE).set
        3 i Color.YELLOW).set 4 i Color.PURPLE).set 5 i Color.ORANGE
    bricksRemaining := s.bricksRemaining + 6 }

/-- The columns visited by `for (int i = 2; i < 11; i++)`, in order. -/
def brickColumns : List (Fin NUM_OF_COLS) :=
  (List.finRange NUM_OF_COLS).filter (fun i => 2 ≤ i.val ∧ i.val < 11)

/-- Lines 97-108. -/
def setBrickArray (s : State) : State :=
  brickColumns.foldl setBrickColumn { s with bricksRemaining := 0 }

/-- The array as its initialiser `{ {DEAD} }` leaves it (line 95). -/
def brickArrayInit : Grid := fun _ _ => Color.DEAD

/-- The state when the loop of `main` is entered (globals of lines 44-91, then lines 269-283). -/
def initState (cfg : Config) : State :=
  setBrickArray
    { bricksRemaining := 0
      score := 0
      showSplash := true
      alive := true
      gameWon := false
      gamePaused := false
      paddleLeft := false
      paddleRight := false
      brickArray := brickArrayInit
      ballX := INITIAL_BALL_X
      ballY := INITIAL_BALL_Y
      ballDirX := doubleToShort cfg.ballSpeed
      ballDirY := doubleToShort cfg.ballSpeed
      paddleX := INITIAL_PADDLE_X }

/-! ## Events (lines 296-403) -/

inductive KeySym where
  | XK_Left | XK_Right | XK_other
deriving DecidableEq, Repr

/-- What `XLookupString` reports for a key event: the number of characters written, the first
character of the buffer, and the key symbol. -/
structure KeyEvent where
  i : Int
  text0 : Char
  key : KeySym

/-- The space bar as `XLookupString` reports it. -/
def spaceKey : KeyEvent := { i := 1, text0 := ' ', key := KeySym.XK_other }

/-- The assignments shared by both restart branches (lines 325-329 and 337-341). -/
def resetGame (s : State) : State :=
  setBrickArray
    { s with paddleX := INITIAL_PADDLE_X, ballX := INITIAL_BALL_X, ballY := INITIAL_BALL_Y, score := 0 }

/-- Lines 317-345: start, restart after losing, restart after winning. -/
def startOrRestart (s : State) (e : KeyEvent) : State :=
  if e.i = 1 ∧ e.text0 = ' ' ∧ s.showSplash = true then { s with showSplash := false }
  else if e.i = 1 ∧ e.text0 = ' ' ∧ s.alive = false then { resetGame s with alive := true }
  else if e.i = 1 ∧ e.text0 = ' ' ∧ s.gameWon = true then { resetGame s with gameWon := false }
  else s

/-- Lines 347-351. -/
def pauseGame (s : State) (e : KeyEvent) : State :=
  if e.i = 1 ∧ e.text0 = 'p' ∧ s.gamePaused = false then { s with gamePaused := true } else s

/-- Lines 352-356. -/
def unpauseGame (s : State) (e : KeyEvent) : State :=
  if e.i = 1 ∧ e.text0 = ' ' ∧ s.gamePaused = true then { s with gamePaused := false } else s

/-- Lines 363-378. -/
def arrowDown (s : State) (e : KeyEvent) : State :=
  match e.key with
  | KeySym.XK_Left => { s with paddleLeft := true }
  | KeySym.XK_Right => { s with paddleRight := true }
  | KeySym.XK_other => s

/-- The `KeyPress` case (lines 302-380); `none` when the process ends through `q`. -/
def keyPress (s : State) (e : KeyEvent) : Option State :=
  let s3 := unpauseGame (pauseGame (startOrRestart s e) e) e
  if e.i = 1 ∧ e.text0 = 'q' then none else some (arrowDown s3 e)

/-- The `KeyRelease` case (lines 381-401). -/
def keyRelease (s : State) (e : KeyEvent) : State :=
  match e.key with
  | KeySym.XK_Left => { s with paddleLeft := false }
  | KeySym.XK_Right => { s with paddleRight := false }
  | KeySym.XK_other => s

/-! ## The simulation part of a loop iteration (lines 410-532) -/

/-- Lines 419-424. -/
def wallBounce (s : State) : State :=
  if (s.ballX + BALL_DIAMETER / 2 ≥ SCREEN_WIDTH ∧ s.ballDirX > 0)
      ∨ (s.ballX - BALL_DIAMETER / 2 ≤ 0 ∧ s.ballDirX < 0)
  then { s with ballDirX := toShort (-1 * s.ballDirX) } else s

/-- Lines 426-430. -/
def topBounce (s : State) : State :=
  if s.ballY - BALL_DIAMETER / 2 ≤ 0 ∧ s.ballDirY < 0
  then { s with ballDirY := toShort (-1 * s.ballDirY) } else s

/-- The condition of lines 433-437. -/
def paddleContact (cfg : Config) (s : State) : Prop :=
  s.ballY + BALL_DIAMETER / 2 ≥ INITIAL_PADDLE_Y
    ∧ s.ballY + BALL_DIAMETER / 2 ≤ INITIAL_PADDLE_Y + PADDLE_HEIGHT
    ∧ s.ballX + BALL_DIAMETER / 2 ≥ s.paddleX
    ∧ s.ballX ≤ s.paddleX + cfg.paddleLength
    ∧ s.ballDirY > 0

instance (cfg : Config) (s : State) : Decidable (paddleContact cfg s) := by
  unfold paddleContact; infer_instance

/-- Lines 432-441. -/
def paddleBounce (cfg : Config) (s : State) : State :=
  if paddleContact cfg s
  then { s with ballDirY := toShort (-1 * s.ballDirY), score := s.score + paddleBouncePoints }
  else s

/-- The first condition of the vertical pass (lines 450-453). -/
def verticalFromAbove (s : State) (row : Fin NUM_OF_ROWS) (col : Fin NUM_OF_COLS) : Prop :=
  s.ballX ≥ ((col.val * BRICK_WIDTH : Int) : ℚ)
    ∧ s.ballX ≤ (((col.val + 1) * BRICK_WIDTH : Int) : ℚ)
    ∧ s.ballY + BALL_DIAMETER / 2 ≥ ((row.val * BRICK_HEIGHT : Int) : ℚ)
    ∧ s.ballY < (((row.val + 1) * BRICK_HEIGHT : Int) : ℚ)

/-- The second condition of the vertical pass (lines 461-464). -/
def verticalFromBelow (s : State) (row : Fin NUM_OF_ROWS) (col : Fin NUM_OF_COLS) : Prop :=
  s.ballX ≥ ((col.val * BRICK_WIDTH : Int) : ℚ)
    ∧ s.ballX ≤ (((col.val + 1) * BRICK_WIDTH : Int) : ℚ)
    ∧ s.ballY - BALL_DIAMETER / 2 ≤ (((row.val + 1) * BRICK_HEIGHT : Int) : ℚ)
    ∧ s.ballY > ((row.val * BRICK_HEIGHT : Int) : ℚ)

/-- The first condition of the horizontal pass (lines 483-486). -/
def horizontalFromLeft (s : State) (row : Fin NUM_OF_ROWS) (col : Fin NUM_OF_COLS) : Prop :=
  s.ballY ≥ ((row.val * BRICK_HEIGHT : Int) : ℚ)
    ∧ s.ballY ≤ (((row.val + 1) * BRICK_HEIGHT : Int) : ℚ)
    ∧ s.ballX + BALL_DIAMETER / 2 ≥ ((col.val * BRICK_WIDTH : Int) : ℚ)
    ∧ s.ballX < (((col.val + 1) * BRICK_WIDTH : Int) : ℚ)

/-- The second condition of the horizontal pass (lines 494-497). -/
def horizontalFromRight (s : State) (row : Fin NUM_OF_ROWS) (col : Fin NUM_OF_COLS) : Prop :=
  s.ballY ≥ ((row.val * BRICK_HEIGHT : Int) : ℚ)
    ∧ s.ballY ≤ (((row.val + 1) * BRICK_HEIGHT : Int) : ℚ)
    ∧ s.ballX - BALL_DIAMETER / 2 ≤ (((col.val + 1) * BRICK_WIDTH : Int) : ℚ)
    ∧ s.ballX > ((col.val * BRICK_WIDTH : Int) : ℚ)

instance (s : State) (row : Fin NUM_OF_ROWS) (col : Fin NUM_OF_COLS) :
    Decidable (verticalFromAbove s row col) := by unfold verticalFromAbove; infer_instance

instance (s : State) (row : Fin NUM_OF_ROWS) (col : Fin NUM_OF_COLS) :
    Decidable (verticalFromBelow s row col) := by unfold verticalFromBelow; infer_instance

instance (s : State) (row : Fin NUM_OF_ROWS) (col : Fin NUM_OF_COLS) :
    Decidable (horizontalFromLeft s row col) := by unfold horizontalFromLeft; infer_instance

instance (s : State) (row : Fin NUM_OF_ROWS) (col : Fin NUM_OF_COLS) :
    Decidable (horizontalFromRight s row col) := by unfold horizontalFromRight; infer_instance

/-- The four statements of lines 455-459 (and 466-470). -/
def breakVertical (s : State) (row : Fin NUM_OF_ROWS) (col : Fin NUM_OF_COLS) : State :=
  { s with
    brickArray := s.brickArray.set row col Color.DEAD
    bricksRemaining := s.bricksRemaining - 1
    score := s.score + destroyBrickPoints
    ballDirY := toShort (-1 * s.ballDirY) }

/-- The four statements of lines 488-492 (and 499-503). -/
def breakHorizontal (s : State) (row : Fin NUM_OF_ROWS) (col : Fin NUM_OF_COLS) : State :=
  { s with
    brickArray := s.brickArray.set row col Color.DEAD
    bricksRemaining := s.bricksRemaining - 1
    score := s.score + destroyBrickPoints
    ballDirX := toShort (-1 * s.ballDirX) }

/-- The body of the inner loop of the vertical pass (lines 448-472). -/
def verticalCell (row : Fin NUM_OF_ROWS) (s : State) (col : Fin NUM_OF_COLS) : State :=
  if s.brickArray row col ≠ Color.DEAD then
    if verticalFromAbove s row col then breakVertical s row col
    else if verticalFromBelow s row col then breakVertical s row col
    else s
  else s

/-- The body of the inner loop of the horizontal pass (lines 481-505). -/
def horizontalCell (row : Fin NUM_OF_ROWS) (s : State) (col : Fin NUM_OF_COLS) : State :=
  if s.brickArray row col ≠ Color.DEAD then
    if horizontalFromLeft s row col then breakHorizontal s row col
    else if horizontalFromRight s row col then breakHorizontal s row col
    else s
  else s

/-- Two nested `for` loops over rows, then columns, running `body` at each cell. -/
def forEachCell (body : Fin NUM_OF_ROWS → State → Fin NUM_OF_COLS → State) (s : State) : State :=
  (List.finRange NUM_OF_ROWS).foldl
    (fun acc row => (List.finRange NUM_OF_COLS).foldl (body row) acc) s

/-- Lines 443-474. -/
def verticalBreak (s : State) : State := forEachCell verticalCell s

/-- Lines 476-507. -/
def horizontalBreak (s : State) : State := forEachCell horizontalCell s

/-- Lines 509-517; the second test reads the position the first statement has left. -/
def movePaddle (cfg : Config) (dt : ℚ) (s : State) : State :=
  let s1 := if s.paddleLeft = true ∧ s.paddleX ≥ 0
    then { s with paddleX := s.paddleX - cfg.paddleSpeed * dt } else s
  if s1.paddleRight = true ∧ s1.paddleX + cfg.paddleLength ≤ SCREEN_WIDTH
  then { s1 with paddleX := s1.paddleX + cfg.paddleSpeed * dt } else s1

/-- Lines 519-524. -/
def moveBall (dt : ℚ) (s : State) : State :=
  { s with ballX := s.ballX + s.ballDirX * dt, ballY := s.ballY + s.ballDirY * dt }

/-- Lines 526-531. -/
def loseCheck (s : State) : State :=
  if s.ballY ≥ SCREEN_HEIGHT ∧ s.gameWon = false then { s with alive := false } else s

/-- Lines 410-414. -/
def winCheck (s : State) : State :=
  if s.alive = true ∧ s.bricksRemaining ≤ 0 ∧ s.gameWon = false
  then { s with gameWon := true } else s

/-- The condition of line 417. -/
def updateGuard (s : State) : Prop :=
  s.alive = true ∧ s.bricksRemaining > 0 ∧ s.gameWon = false ∧ s.gamePaused = false
    ∧ s.showSplash = false

instance (s : State) : Decidable (updateGuard s) := by unfold updateGuard; infer_instance

/-- Lines 419-507: the reflections and the two brick passes. -/
def collisions (cfg : Config) (s : State) : State :=
  horizontalBreak (verticalBreak (paddleBounce cfg (topBounce (wallBounce s))))

/-- The block guarded by line 417 (lines 419-531). -/
def updateBody (cfg : Config) (dt : ℚ) (s : State) : State :=
  loseCheck (moveBall dt (movePaddle cfg dt (collisions cfg s)))

/-- Lines 410-532: the win check, then the guarded update. -/
def simulate (cfg : Config) (dt : ℚ) (s : State) : State :=
  let s1 := winCheck s
  if updateGuard s1 then updateBody cfg dt s1 else s1

/-! ## Phases

The program has no phase variable; the drawing code (lines 649, 670, 691, 705) and the guard of
line 417 read the phase off the flags. -/

/-- The flags of a running game (the flag part of line 417). -/
def isPlaying (s : State) : Prop :=
  s.alive = true ∧ s.gameWon = false ∧ s.gamePaused = false ∧ s.showSplash = false

/-- The flags under which the winning text is drawn (line 649), the splash text not. -/
def isWon (s : State) : Prop :=
  s.showSplash = false ∧ s.alive = true ∧ s.gameWon = true

/-- The flags under which the losing text is drawn (line 670), the splash text not. -/
def isLost (s : State) : Prop :=
  s.showSplash = false ∧ s.alive = false ∧ s.gameWon = false

instance (s : State) : Decidable (isPlaying s) := by unfold isPlaying; infer_instance
instance (s : State) : Decidable (isWon s) := by unfold isWon; infer_instance
instance (s : State) : Decidable (isLost s) := by unfold isLost; infer_instance

/-- The number of cells of the array that are not `DEAD`. -/
def countLive (g : Grid) : Nat :=
  (Finset.univ.filter (fun p : Fin NUM_OF_ROWS × Fin NUM_OF_COLS => g p.1 p.2 ≠ Color.DEAD)).card

/-! ## Predicates of the statements and of the proofs -/

/-- The fields that the reflections and the brick passes (lines 419-507) never assign. -/
def SameOutsideCollisions (s t : State) : Prop :=
  t.showSplash = s.showSplash ∧ t.alive = s.alive ∧ t.gameWon = s.gameWon
    ∧ t.gamePaused = s.gamePaused ∧ t.paddleLeft = s.paddleLeft ∧ t.paddleRight = s.paddleRight
    ∧ t.ballX = s.ballX ∧ t.ballY = s.ballY ∧ t.paddleX = s.paddleX

/-- The range of a C `short`. -/
def InShort (z : Int) : Prop := -32768 ≤ z ∧ z ≤ 32767

instance (z : Int) : Decidable (InShort z) := by unfold InShort; infer_instance

/-- The absolute values of the two components of `ballDir` are `a` and `b`, and both
components are `short` values. -/
def SpeedIs (a b : Int) (t : State) : Prop :=
  |t.ballDirX| = a ∧ |t.ballDirY| = b ∧ InShort t.ballDirX ∧ InShort t.ballDirY

/-- The number of cells that are live in `g` and `DEAD` in `g2`. -/
def destroyedCells (g g2 : Grid) : Nat :=
  (Finset.univ.filter (fun p : Fin NUM_OF_ROWS × Fin NUM_OF_COLS =>
    g p.1 p.2 ≠ Color.DEAD ∧ g2 p.1 p.2 = Color.DEAD)).card

/-- The paddle bounce of lines 432-441 is executed in this loop iteration: the guard of line 417
holds and, after the wall and top reflections, so does the condition of lines 433-437. -/
def paddleBounceFired (cfg : Config) (s : State) : Prop :=
  updateGuard (winCheck s) ∧ paddleContact cfg (topBounce (wallBounce (winCheck s)))

instance (cfg : Config) (s : State) : Decidable (paddleBounceFired cfg s) := by
  unfold paddleBounceFired; infer_instance

/-- The states the program can be in at the top of a loop iteration or between the event and
the simulation of an iteration. -/
inductive Reachable (cfg : Config) : State → Prop where
  | start : Reachable cfg (initState cfg)
  | keyPress {s t : State} (e : KeyEvent) :
      Reachable cfg s → keyPress s e = some t → Reachable cfg t
  | keyRelease {s : State} (e : KeyEvent) : Reachable cfg s → Reachable cfg (keyRelease s e)
  | simulate {s : State} (dt : ℚ) : Reachable cfg s → Reachable cfg (simulate cfg dt s)

/-- The counter agrees with the array, and the columns that `setBrickArray` never fills are
empty. -/
def GridInv (s : State) : Prop :=
  s.bricksRemaining = countLive s.brickArray
    ∧ ∀ (r : Fin NUM_OF_ROWS) (c : Fin NUM_OF_COLS),
        ¬ (2 ≤ c.val ∧ c.val < 11) → s.brickArray r c = Color.DEAD

/-- Relative to the state `s0` before the brick passes: cells only ever change to `DEAD`, and
the score and the counter have moved by the number of cells destroyed since. -/
def BrickAccount (s0 t : State) : Prop :=
  (∀ (r : Fin NUM_OF_ROWS) (c : Fin NUM_OF_COLS),
      t.brickArray r c = s0.brickArray r c ∨ t.brickArray r c = Color.DEAD)
    ∧ t.score = s0.score + destroyBrickPoints * destroyedCells s0.brickArray t.brickArray
    ∧ t.bricksRemaining = s0.bricksRemaining - destroyedCells s0.brickArray t.brickArray

/-! ## Concrete inputs -/

/-- The globals after argument processing of an invocation without arguments. -/
def defaultConfig : Config := { ballSpeed := 150, paddleSpeed := 200, paddleLength := 80 }

/-- A lost game: the ball is below the screen, some bricks are gone, the game is also paused. -/
def lostState : State :=
  { bricksRemaining := 3
    score := 2590
    showSplash := false
    alive := false
    gameWon := false
    gamePaused := true
    paddleLeft := false
    paddleRight := true
    brickArray := fun r c => if r.val = 5 ∧ 2 ≤ c.val ∧ c.val < 5 then Color.ORANGE else Color.DEAD
    ballX := 400
    ballY := 803
    ballDirX := -150
    ballDirY := 150
    paddleX := 1000 }

/-- A running game with one brick left, `brickArray[5][10]`, and the ball just under that
brick, moving upward at the speed of index 9. -/
def lastBrickState : State :=
  { bricksRemaining := 1
    score := 2650
    showSplash := false
    alive := true
    gameWon := false
    gamePaused := false
    paddleLeft := false
    paddleRight := false
    brickArray := fun r c => if r.val = 5 ∧ c.val = 10 then Color.ORANGE else Color.DEAD
    ballX := 1050
    ballY := 160
    ballDirX := 250
    ballDirY := -250
    paddleX := 625 }

/-- The globals after argument processing of the invocation with arguments `9 7`. -/
def fastBallConfig : Config := { ballSpeed := 250, paddleSpeed := 200, paddleLength := 50 }

/-- A running game on the full array in which, in one frame, the ball touches the left wall,
lies in the paddle band over the paddle, and moves left and down. -/
def wallAndPaddleState : State :=
  { initState defaultConfig with
    showSplash := false, ballX := 10, ballY := 690, ballDirX := -150, paddleX := 0 }

/-- A running game just started from the splash screen, with the ball placed under the brick
`brickArray[5][2]`. -/
def ballUnderBrick : State :=
  { initState defaultConfig with showSplash := false, ballX := 250, ballY := 160, ballDirY := -150 }

/-- The state that the space bar makes of the splash screen: the game runs. -/
def startedState : State := { initState defaultConfig with showSplash := false }

/-- The state after six update steps of a started game: the ball reaches the paddle, bounces to
the right wall, to the top wall, and comes down on the bricks of column 10. -/
def afterSixUpdates : State :=
  simulate defaultConfig (1 / 64) (simulate defaultConfig (3 / 4) (simulate defaultConfig (1 / 4)
    (simulate defaultConfig (1 / 4) (simulate defaultConfig 4
      (simulate defaultConfig (17 / 4) startedState)))))

/-- A running game whose ball, moving downward, has its lower edge inside the paddle band and
lies over the paddle. -/
def ballOnPaddle : State :=
  { initState defaultConfig with showSplash := false, ballX := 660, ballY := 690 }

/-- The flags under which the pause text is drawn (line 691). -/
def isPaused (s : State) : Prop :=
  s.gamePaused = true ∧ s.alive = true ∧ s.showSplash = false

instance (s : State) : Decidable (isPaused s) := by unfold isPaused; infer_instance

/-- The key `p` as `XLookupString` reports it. -/
def pKey : KeyEvent := { i := 1, text0 := 'p', key := KeySym.XK_other }

/-- A lost game reached from a started game in five update steps: the ball bounces off the
paddle, the right wall and the top wall, and then, in a step of 5.25 s, falls to the bottom
boundary while moving to the left. -/
def lostAfterWallBounce : State :=
  simulate defaultConfig (21 / 4) (simulate defaultConfig (1 / 4) (simulate defaultConfig (1 / 4)
    (simulate defaultConfig 4 (simulate defaultConfig (17 / 4) startedState))))

/-- A won game: the last brick was destroyed in one update step and the next loop iteration
has set `gameWon`. -/
def wonState : State :=
  simulate fastBallConfig (1 / 64) (simulate fastBallConfig (1 / 64) lastBrickState)

/-- A paused game with the right arrow key held down. -/
def pausedState : State :=
  { initState defaultConfig with showSplash := false, gamePaused := true, paddleRight := true }

/-- The left arrow key as `XLookupString` reports it: no character is written (`i = 0`, the
buffer is not read), the key symbol is `XK_Left`. -/
def leftArrowKey : KeyEvent := { i := 0, text0 := 'a', key := KeySym.XK_Left }

/-- The right arrow key as `XLookupString` reports it. -/
def rightArrowKey : KeyEvent := { i := 0, text0 := 'a', key := KeySym.XK_Right }

/-- A started game in which the left arrow is pressed and one update step of 3.125 s follows:
the paddle has moved from x = 625 to x = 0, the left edge, with the key still down. -/
def paddleReachesLeftEdge : State :=
  simulate defaultConfig (25 / 8) (arrowDown startedState leftArrowKey)

/-- The state one update step of 1/64 s later: the paddle is at x = -3.125, the key is down. -/
def paddlePastLeftEdge : State := simulate defaultConfig (1 / 64) paddleReachesLeftEdge

/-- A started game after one update step of 4.25 s: the ball is at (687.5, 687.5), its lower
edge on the top of the paddle band, over the paddle (625..705), and moves downward. -/
def ballReachesPaddle : State := simulate defaultConfig (17 / 4) startedState

/-- A started game after one update step of 4.375 s: the ball is at (706.25, 706.25), its
lower edge inside the paddle band, its centre 1.25 right of the paddle's right end 705. -/
def ballPastRightEnd : State := simulate defaultConfig (35 / 8) startedState

/-- A started game in which the right arrow is held for an update step of 1/4 s (the paddle
moves to 675..755) and released, and an update step of 4.25 s follows: the ball is at
(725, 725), its upper edge (712.5) inside the paddle band, its lower edge (737.5) under it. -/
def ballLowInBand : State :=
  simulate defaultConfig (17 / 4)
    (keyRelease (simulate defaultConfig (1 / 4) (arrowDown startedState rightArrowKey))
      rightArrowKey)

/-! # Theorems -/

/-! ## Argument processing: lemmas -/

theorem processArgs_no_args :
    processArgs ["./breakoutGame"] = ArgResult.proceed defaultConfig := by decide!

theorem processArgs_fast_ball :
    processArgs ["./breakoutGame", "9", "7"] = ArgResult.proceed fastBallConfig := by decide!

theorem processArgs_bad_count (argv : List String)
    (h : argv.length ≠ 1 ∧ argv.length ≠ 3 ∧ argv.length ≠ 4) :
    processArgs argv = ArgResult.exited "Invalid inputs" 0 := by
  obtain ⟨h1, h3, h4⟩ := h
  match argv, h1, h3, h4 with
  | [], _, _, _ => rfl
  | [_], h1, _, _ => exact absurd rfl h1
  | [_, _], _, _, _ => rfl
  | [_, _, _], _, h3, _ => exact absurd rfl h3
  | [_, _, _, _], _, _, h4 => exact absurd rfl h4
  | _ :: _ :: _ :: _ :: _ :: _, _, _, _ => rfl

/-! ## Claims on argument processing -/

/-- C3 (the code departs from it): with the two arguments `5 5` the speeds are taken from
`speedArray[5]`, but `paddleLength` keeps its initialiser 50, whereas the invocation without
arguments sets it to 80. -/
theorem C3_two_args_keep_initialiser :
    processArgs ["./breakoutGame", "5", "5"]
        = ArgResult.proceed { ballSpeed := 150, paddleSpeed := 150, paddleLength := 50 }
      ∧ processArgs ["./breakoutGame"]
        = ArgResult.proceed { ballSpeed := 150, paddleSpeed := 200, paddleLength := 80 } := by
  decide!

/-- C7 (the code departs from it): with one argument the program writes `Invalid inputs` and
ends before a display is opened, but through `exit(0)`: the exit status is zero. -/
theorem C7_one_arg_exit_status_zero :
    processArgs ["./breakoutGame", "5"] = ArgResult.exited "Invalid inputs" 0 :=
  processArgs_bad_count ["./breakoutGame", "5"] (by decide)

/-- C8 (the code departs from it): with the arguments `10 5` no error path is taken; the
program reads `speedArray[10]`, one past the end of the array. -/
theorem C8_out_of_range_index_is_read :
    processArgs ["./breakoutGame", "10", "5"] = ArgResult.outOfBoundsRead
      ∧ (∀ msg status, processArgs ["./breakoutGame", "10", "5"] ≠ ArgResult.exited msg status)
      ∧ processArgs ["./breakoutGame", "5", "5", "5"] = ArgResult.outOfBoundsRead := by
  refine ⟨by decide!, ?_, by decide!⟩
  intro msg status h
  have h2 : processArgs ["./breakoutGame", "10", "5"] = ArgResult.outOfBoundsRead := by decide!
  rw [h2] at h
  cases h

/-! ## `setBrickArray` and restart -/

theorem brickColumns_eq : brickColumns = [2, 3, 4, 5, 6, 7, 8, 9, 10] := by decide

theorem mem_brickColumns (c : Fin NUM_OF_COLS) : c ∈ brickColumns ↔ 2 ≤ c.val ∧ c.val < 11 := by
  simp [brickColumns, List.mem_filter]

theorem setBrickColumn_brickArray (s : State) (i : Fin NUM_OF_COLS) (r : Fin NUM_OF_ROWS)
    (c : Fin NUM_OF_COLS) :
    (setBrickColumn s i).brickArray r c = if c = i then rowColor r else s.brickArray r c := by
  by_cases hc : c = i
  · subst hc
    simp only [setBrickColumn, Grid.set, and_true, if_true]
    fin_cases r <;> rfl
  · simp [setBrickColumn, Grid.set, hc]

theorem foldl_setBrickColumn_brickArray (l : List (Fin NUM_OF_COLS)) (s : State)
    (r : Fin NUM_OF_ROWS) (c : Fin NUM_OF_COLS) :
    (l.foldl setBrickColumn s).brickArray r c = if c ∈ l then rowColor r else s.brickArray r c := by
  induction l generalizing s with
  | nil => simp
  | cons i l ih =>
    rw [List.foldl_cons, ih, setBrickColumn_brickArray]
    by_cases h1 : c ∈ l
    · simp [h1]
    · by_cases h2 : c = i
      · simp [h2]
      · simp [h1, h2]

theorem foldl_setBrickColumn_bricksRemaining (l : List (Fin NUM_OF_COLS)) (s : State) :
    (l.foldl setBrickColumn s).bricksRemaining = s.bricksRemaining + 6 * l.length := by
  induction l generalizing s with
  | nil => simp
  | cons i l ih =>
    rw [List.foldl_cons, ih]
    simp only [setBrickColumn, List.length_cons]
    push_cast
    ring

/-- The loop of `setBrickArray` touches only the array and the counter. -/
theorem foldl_setBrickColumn_rest (l : List (Fin NUM_OF_COLS)) (s : State) :
    (l.foldl setBrickColumn s) =
      { s with
        brickArray := (l.foldl setBrickColumn s).brickArray
        bricksRemaining := (l.foldl setBrickColumn s).bricksRemaining } := by
  induction l generalizing s with
  | nil => rfl
  | cons i l ih =>
    rw [List.foldl_cons, ih]
    rfl

theorem rowColor_ne_dead (r : Fin NUM_OF_ROWS) : rowColor r ≠ Color.DEAD := by
  fin_cases r <;> simp [rowColor]

theorem setBrickArray_bricksRemaining (s : State) : (setBrickArray s).bricksRemaining = 54 := by
  rw [setBrickArray, foldl_setBrickColumn_bricksRemaining, brickColumns_eq]
  rfl

theorem setBrickArray_brickArray (s : State) (r : Fin NUM_OF_ROWS) (c : Fin NUM_OF_COLS) :
    (setBrickArray s).brickArray r c
      = if 2 ≤ c.val ∧ c.val < 11 then rowColor r else s.brickArray r c := by
  rw [setBrickArray, foldl_setBrickColumn_brickArray]
  simp only [mem_brickColumns]

theorem setBrickArray_rest (s : State) :
    setBrickArray s =
      { s with
        brickArray := (setBrickArray s).brickArray
        bricksRemaining := (setBrickArray s).bricksRemaining } := by
  exact foldl_setBrickColumn_rest _ _

/-- The state that the space bar leaves when it restarts a game (either restart branch followed
by the unpause statement): only the flags differ between the two branches. -/
theorem keyPress_space_restart (s : State) (h : isWon s ∨ isLost s) :
    keyPress s spaceKey
      = some { resetGame s with alive := true, gameWon := false, gamePaused := false } := by
  have hreset : ∀ t : State, (resetGame t).alive = t.alive ∧ (resetGame t).gameWon = t.gameWon
      ∧ (resetGame t).gamePaused = t.gamePaused ∧ (resetGame t).showSplash = t.showSplash := by
    intro t
    unfold resetGame
    rw [setBrickArray_rest]
    exact ⟨rfl, rfl, rfl, rfl⟩
  obtain ⟨ha, hw, hp, hs⟩ := hreset s
  rcases h with ⟨h1, h2, h3⟩ | ⟨h1, h2, h3⟩
  · cases hpz : s.gamePaused <;>
      simp [keyPress, spaceKey, startOrRestart, pauseGame, unpauseGame, arrowDown, h1, h2, h3,
        hpz, ha, hw, hp, hs]
  · cases hpz : s.gamePaused <;>
      simp [keyPress, spaceKey, startOrRestart, pauseGame, unpauseGame, arrowDown, h1, h2, h3,
        hpz, ha, hw, hp, hs]

/-- C5: from a won or a lost game (any score, array, positions and pause flag) the space bar
gives score 0, 54 bricks remaining with rows 0-5 of columns 2-10 all live, the ball and the
paddle at their initial positions, and the flags of a running game. -/
theorem C5_restart_resets (s : State) (h : isWon s ∨ isLost s) :
    ∃ t, keyPress s spaceKey = some t
      ∧ t.score = 0
      ∧ t.bricksRemaining = 54
      ∧ (∀ r c, 2 ≤ c.val → c.val ≤ 10 → t.brickArray r c ≠ Color.DEAD)
      ∧ t.ballX = INITIAL_BALL_X ∧ t.ballY = INITIAL_BALL_Y
      ∧ t.paddleX = INITIAL_PADDLE_X
      ∧ isPlaying t := by
  refine ⟨_, keyPress_space_restart s h, ?_, ?_, ?_, ?_, ?_, ?_, ?_⟩
  · show (resetGame s).score = 0
    unfold resetGame; rw [setBrickArray_rest]
  · show (resetGame s).bricksRemaining = 54
    exact setBrickArray_bricksRemaining _
  · intro r c h2 h10
    show (resetGame s).brickArray r c ≠ Color.DEAD
    unfold resetGame
    rw [setBrickArray_brickArray, if_pos ⟨h2, by omega⟩]
    exact rowColor_ne_dead r
  · show (resetGame s).ballX = INITIAL_BALL_X
    unfold resetGame; rw [setBrickArray_rest]
  · show (resetGame s).ballY = INITIAL_BALL_Y
    unfold resetGame; rw [setBrickArray_rest]
  · show (resetGame s).paddleX = INITIAL_PADDLE_X
    unfold resetGame; rw [setBrickArray_rest]
  · refine ⟨rfl, rfl, rfl, ?_⟩
    show (resetGame s).showSplash = false
    unfold resetGame; rw [setBrickArray_rest]
    rcases h with h | h <;> exact h.1

/-- C5 at a lost and paused game with score 2590 and three bricks left. -/
theorem C5_restart_resets_witness :
    (isWon lostState ∨ isLost lostState)
      ∧ ∃ t, keyPress lostState spaceKey = some t
        ∧ t.score = 0
        ∧ t.bricksRemaining = 54
        ∧ (∀ r c, 2 ≤ c.val → c.val ≤ 10 → t.brickArray r c ≠ Color.DEAD)
        ∧ t.ballX = INITIAL_BALL_X ∧ t.ballY = INITIAL_BALL_Y
        ∧ t.paddleX = INITIAL_PADDLE_X
        ∧ isPlaying t :=
  ⟨Or.inr (by decide), C5_restart_resets lostState (Or.inr (by decide))⟩

/-! ## Loops -/

theorem foldl_preserves {α β : Type} (P : β → Prop) (f : β → α → β)
    (h : ∀ b a, P b → P (f b a)) (l : List α) (b : β) (hb : P b) : P (l.foldl f b) := by
  induction l generalizing b with
  | nil => exact hb
  | cons a l ih => exact ih (f b a) (h b a hb)

/-- A property kept by the loop body at every cell is kept by the two nested loops. -/
theorem forEachCell_preserves (P : State → Prop)
    (body : Fin NUM_OF_ROWS → State → Fin NUM_OF_COLS → State)
    (h : ∀ row s col, P s → P (body row s col)) (s : State) (hs : P s) :
    P (forEachCell body s) := by
  unfold forEachCell
  apply foldl_preserves P _ _ _ _ hs
  intro acc row hacc
  exact foldl_preserves P _ (fun b col hb => h row b col hb) _ _ hacc

/-! ## Frame of the collision code -/

theorem SameOutsideCollisions.trans {s t u : State} (h1 : SameOutsideCollisions s t)
    (h2 : SameOutsideCollisions t u) : SameOutsideCollisions s u := by
  obtain ⟨a1, a2, a3, a4, a5, a6, a7, a8, a9⟩ := h1
  obtain ⟨b1, b2, b3, b4, b5, b6, b7, b8, b9⟩ := h2
  exact ⟨b1.trans a1, b2.trans a2, b3.trans a3, b4.trans a4, b5.trans a5, b6.trans a6,
    b7.trans a7, b8.trans a8, b9.trans a9⟩

theorem wallBounce_eq (s : State) : ∃ d, wallBounce s = { s with ballDirX := d } := by
  unfold wallBounce
  split_ifs
  · exact ⟨_, rfl⟩
  · exact ⟨s.ballDirX, rfl⟩

theorem movePaddle_eq (cfg : Config) (dt : ℚ) (s : State) :
    ∃ x, movePaddle cfg dt s = { s with paddleX := x } := by
  unfold movePaddle
  by_cases hL : s.paddleLeft = true ∧ s.paddleX ≥ 0
  · simp only [hL, and_self, if_true]
    split_ifs
    · exact ⟨_, rfl⟩
    · exact ⟨_, rfl⟩
  · simp only [hL, if_false]
    split_ifs
    · exact ⟨_, rfl⟩
    · exact ⟨s.paddleX, rfl⟩

theorem winCheck_of_bricks (s : State) (h : s.bricksRemaining > 0) : winCheck s = s := by
  unfold winCheck
  rw [if_neg]
  intro hc
  omega

/-! ## A ball below the bricks and the paddle -/

theorem row_bottom_le (row : Fin NUM_OF_ROWS) :
    (((row.val + 1) * BRICK_HEIGHT : Int) : ℚ) ≤ 150 := by
  have h : row.val < 6 := row.isLt
  have h2 : ((row.val + 1) * BRICK_HEIGHT : Int) ≤ 150 := by
    unfold BRICK_HEIGHT; omega
  exact_mod_cast h2

theorem verticalCell_of_below (row : Fin NUM_OF_ROWS) (s : State) (col : Fin NUM_OF_COLS)
    (h : 325 / 2 < s.ballY) : verticalCell row s col = s := by
  have hr := row_bottom_le row
  unfold verticalCell
  split_ifs with h1 h2 h3
  · exfalso
    have := h2.2.2.2
    linarith
  · exfalso
    have := h3.2.2.1
    unfold BALL_DIAMETER at this
    linarith
  · rfl
  · rfl

theorem horizontalCell_of_below (row : Fin NUM_OF_ROWS) (s : State) (col : Fin NUM_OF_COLS)
    (h : 325 / 2 < s.ballY) : horizontalCell row s col = s := by
  have hr := row_bottom_le row
  unfold horizontalCell
  split_ifs with h1 h2 h3
  · exfalso
    have := h2.2.1
    linarith
  · exfalso
    have := h3.2.1
    linarith
  · rfl
  · rfl

theorem verticalBreak_of_below (s : State) (h : 325 / 2 < s.ballY) : verticalBreak s = s :=
  forEachCell_preserves (fun t => t = s) verticalCell
    (fun row t col ht => by subst ht; exact verticalCell_of_below row t col h) s rfl

theorem horizontalBreak_of_below (s : State) (h : 325 / 2 < s.ballY) : horizontalBreak s = s :=
  forEachCell_preserves (fun t => t = s) horizontalCell
    (fun row t col ht => by subst ht; exact horizontalCell_of_below row t col h) s rfl

/-! ## Winning and losing -/

/-- C1 (the code departs from it): one brick is left and the ball, just under it, moves upward
at 250 pixels per second.  An update step with `dt = 3` destroys that brick, so that no brick
remains, carries the ball to y = 910, below the screen, and leaves the game lost and not won;
the following loop iteration changes nothing.  With `dt = 1/64` the ball stays on the screen,
and the update that destroys the brick still leaves `gameWon` false: the flag is set by the
win check of the following loop iteration. -/
theorem C1_last_brick_cleared_yet_lost :
    isPlaying lastBrickState
      ∧ lastBrickState.bricksRemaining = 1
      ∧ countLive lastBrickState.brickArray = 1
      ∧ (simulate fastBallConfig 3 lastBrickState).bricksRemaining = 0
      ∧ countLive (simulate fastBallConfig 3 lastBrickState).brickArray = 0
      ∧ (simulate fastBallConfig 3 lastBrickState).ballY = 910
      ∧ isLost (simulate fastBallConfig 3 lastBrickState)
      ∧ ¬ isWon (simulate fastBallConfig 3 lastBrickState)
      ∧ isLost (simulate fastBallConfig (1 / 64) (simulate fastBallConfig 3 lastBrickState))
      ∧ ¬ isWon (simulate fastBallConfig (1 / 64) (simulate fastBallConfig 3 lastBrickState))
      ∧ (simulate fastBallConfig (1 / 64) lastBrickState).bricksRemaining = 0
      ∧ ¬ isWon (simulate fastBallConfig (1 / 64) lastBrickState)
      ∧ isWon (simulate fastBallConfig (1 / 64) (simulate fastBallConfig (1 / 64) lastBrickState)) := by
  decide!

/-! ## The velocity of the ball -/

theorem toShort_inShort (z : Int) : InShort (toShort z) := by
  unfold InShort toShort
  omega

theorem abs_toShort_neg (x : Int) (h : InShort x) : |toShort (-1 * x)| = |x| := by
  obtain ⟨h1, h2⟩ := h
  by_cases hx : x = -32768
  · subst hx
    rfl
  · have : toShort (-1 * x) = -x := by
      unfold toShort
      omega
    rw [this, abs_neg]

theorem SpeedIs.flipX {a b : Int} {t : State} (h : SpeedIs a b t) :
    SpeedIs a b { t with ballDirX := toShort (-1 * t.ballDirX) } :=
  ⟨(abs_toShort_neg _ h.2.2.1).trans h.1, h.2.1, toShort_inShort _, h.2.2.2⟩

theorem SpeedIs.flipY {a b : Int} {t : State} (h : SpeedIs a b t) :
    SpeedIs a b { t with ballDirY := toShort (-1 * t.ballDirY) } :=
  ⟨h.1, (abs_toShort_neg _ h.2.2.2).trans h.2.1, h.2.2.1, toShort_inShort _⟩

theorem SpeedIs.of_dir {a b : Int} {t u : State} (h : SpeedIs a b t)
    (hx : u.ballDirX = t.ballDirX) (hy : u.ballDirY = t.ballDirY) : SpeedIs a b u := by
  unfold SpeedIs at *
  rw [hx, hy]
  exact h

theorem loseCheck_ballDir (u : State) :
    (loseCheck u).ballDirX = u.ballDirX ∧ (loseCheck u).ballDirY = u.ballDirY := by
  unfold loseCheck
  split_ifs <;> exact ⟨rfl, rfl⟩

theorem wallBounce_speed {a b : Int} {t : State} (h : SpeedIs a b t) :
    SpeedIs a b (wallBounce t) := by
  unfold wallBounce
  split_ifs
  · exact h.flipX
  · exact h

theorem topBounce_speed {a b : Int} {t : State} (h : SpeedIs a b t) :
    SpeedIs a b (topBounce t) := by
  unfold topBounce
  split_ifs
  · exact h.flipY
  · exact h

theorem paddleBounce_speed (cfg : Config) {a b : Int} {t : State} (h : SpeedIs a b t) :
    SpeedIs a b (paddleBounce cfg t) := by
  unfold paddleBounce
  split_ifs
  · exact h.flipY
  · exact h

theorem verticalCell_speed (row : Fin NUM_OF_ROWS) (col : Fin NUM_OF_COLS) {a b : Int}
    {t : State} (h : SpeedIs a b t) : SpeedIs a b (verticalCell row t col) := by
  unfold verticalCell
  split_ifs
  · exact h.flipY
  · exact h.flipY
  · exact h
  · exact h

theorem horizontalCell_speed (row : Fin NUM_OF_ROWS) (col : Fin NUM_OF_COLS) {a b : Int}
    {t : State} (h : SpeedIs a b t) : SpeedIs a b (horizontalCell row t col) := by
  unfold horizontalCell
  split_ifs
  · exact h.flipX
  · exact h.flipX
  · exact h
  · exact h

theorem collisions_speed (cfg : Config) {a b : Int} {t : State} (h : SpeedIs a b t) :
    SpeedIs a b (collisions cfg t) := by
  unfold collisions horizontalBreak verticalBreak
  apply forEachCell_preserves (SpeedIs a b) horizontalCell
    (fun row u col hu => horizontalCell_speed row col hu)
  apply forEachCell_preserves (SpeedIs a b) verticalCell
    (fun row u col hu => verticalCell_speed row col hu)
  exact paddleBounce_speed cfg (topBounce_speed (wallBounce_speed h))

theorem simulate_speed (cfg : Config) (dt : ℚ) {a b : Int} {s : State} (h : SpeedIs a b s) :
    SpeedIs a b (simulate cfg dt s) := by
  have hw : SpeedIs a b (winCheck s) := by
    unfold winCheck
    split_ifs
    · exact h
    · exact h
  unfold simulate
  simp only []
  split_ifs
  · have hc := collisions_speed cfg hw
    obtain ⟨x, hx⟩ := movePaddle_eq cfg dt (collisions cfg (winCheck s))
    unfold updateBody
    refine hc.of_dir ?_ ?_
    · rw [(loseCheck_ballDir _).1, hx, moveBall]
    · rw [(loseCheck_ballDir _).2, hx, moveBall]
  · exact hw

/-- The value that `ballDir.x = ballSpeed` stores for the speed of index `i`. -/
theorem configured_speed_inShort (i : Fin speedArray.length) :
    0 ≤ doubleToShort (25 * speedArray.get i) ∧ doubleToShort (25 * speedArray.get i) ≤ 250 := by
  fin_cases i <;> decide!

/-- The frame of `wallAndPaddleState` reflects both components and scores the paddle bounce. -/
theorem wallAndPaddleState_values :
    wallAndPaddleState.ballDirX = -150 ∧ wallAndPaddleState.ballDirY = 150
      ∧ (simulate defaultConfig (1 / 64) wallAndPaddleState).ballDirX = 150
      ∧ (simulate defaultConfig (1 / 64) wallAndPaddleState).ballDirY = -150
      ∧ (simulate defaultConfig (1 / 64) wallAndPaddleState).score = 20 := by
  decide!

/-- C9: when both components of the ball's velocity have the magnitude of a speed the command
line can select (`25*speedArray[i]` stored in a `short`), every update step, whatever it hits,
leaves the absolute value of each component unchanged. -/
theorem C9_speed_components_keep_magnitude (cfg : Config) (dt : ℚ) (s : State)
    (i : Fin speedArray.length)
    (hx : |s.ballDirX| = doubleToShort (25 * speedArray.get i))
    (hy : |s.ballDirY| = doubleToShort (25 * speedArray.get i)) :
    |(simulate cfg dt s).ballDirX| = |s.ballDirX|
      ∧ |(simulate cfg dt s).ballDirY| = |s.ballDirY| := by
  obtain ⟨h0, h250⟩ := configured_speed_inShort i
  have hX : InShort s.ballDirX := by
    have := abs_le.mp (le_of_eq hx)
    constructor <;> linarith [this.1, this.2]
  have hY : InShort s.ballDirY := by
    have := abs_le.mp (le_of_eq hy)
    constructor <;> linarith [this.1, this.2]
  have h := simulate_speed cfg dt (a := |s.ballDirX|) (b := |s.ballDirY|) ⟨rfl, rfl, hX, hY⟩
  exact ⟨h.1, h.2.1⟩

/-- C9 at a frame in which the ball bounces off the left wall and off the paddle at once, at
the speed of index 5. -/
theorem C9_speed_components_keep_magnitude_witness :
    |(simulate defaultConfig (1 / 64) wallAndPaddleState).ballDirX|
        = |wallAndPaddleState.ballDirX|
      ∧ |(simulate defaultConfig (1 / 64) wallAndPaddleState).ballDirY|
        = |wallAndPaddleState.ballDirY| :=
  C9_speed_components_keep_magnitude defaultConfig (1 / 64) wallAndPaddleState
    ⟨5, by decide⟩ (by decide!) (by decide!)

/-! ## Counting bricks -/

theorem verticalCell_cases (row : Fin NUM_OF_ROWS) (s : State) (col : Fin NUM_OF_COLS) :
    verticalCell row s col = s
      ∨ (s.brickArray row col ≠ Color.DEAD ∧ verticalCell row s col = breakVertical s row col) := by
  unfold verticalCell
  split_ifs with h1 h2 h3
  · exact Or.inr ⟨h1, rfl⟩
  · exact Or.inr ⟨h1, rfl⟩
  · exact Or.inl rfl
  · exact Or.inl rfl

theorem horizontalCell_cases (row : Fin NUM_OF_ROWS) (s : State) (col : Fin NUM_OF_COLS) :
    horizontalCell row s col = s
      ∨ (s.brickArray row col ≠ Color.DEAD
          ∧ horizontalCell row s col = breakHorizontal s row col) := by
  unfold horizontalCell
  split_ifs with h1 h2 h3
  · exact Or.inr ⟨h1, rfl⟩
  · exact Or.inr ⟨h1, rfl⟩
  · exact Or.inl rfl
  · exact Or.inl rfl

/-- Destroying a live cell lowers the number of live cells by one. -/
theorem countLive_set_dead (g : Grid) (row : Fin NUM_OF_ROWS) (col : Fin NUM_OF_COLS)
    (h : g row col ≠ Color.DEAD) : countLive (g.set row col Color.DEAD) + 1 = countLive g := by
  unfold countLive
  have hset : Finset.univ.filter (fun p : Fin NUM_OF_ROWS × Fin NUM_OF_COLS =>
        g p.1 p.2 ≠ Color.DEAD)
      = insert (row, col) (Finset.univ.filter (fun p : Fin NUM_OF_ROWS × Fin NUM_OF_COLS =>
        (g.set row col Color.DEAD) p.1 p.2 ≠ Color.DEAD)) := by
    ext ⟨r, c⟩
    simp only [Finset.mem_filter, Finset.mem_univ, true_and, Finset.mem_insert, Prod.mk.injEq,
      Grid.set]
    by_cases hp : r = row ∧ c = col
    · obtain ⟨rfl, rfl⟩ := hp
      simp [h]
    · simp [hp]
  have hnot : (row, col) ∉ Finset.univ.filter (fun p : Fin NUM_OF_ROWS × Fin NUM_OF_COLS =>
        (g.set row col Color.DEAD) p.1 p.2 ≠ Color.DEAD) := by
    simp [Grid.set]
  rw [hset, Finset.card_insert_of_not_mem hnot]

/-- Destroying a cell that was live all along raises the number of destroyed cells by one. -/
theorem destroyedCells_set_dead (g0 g : Grid) (row : Fin NUM_OF_ROWS) (col : Fin NUM_OF_COLS)
    (h0 : g0 row col ≠ Color.DEAD) (h : g row col ≠ Color.DEAD) :
    destroyedCells g0 (g.set row col Color.DEAD) = destroyedCells g0 g + 1 := by
  unfold destroyedCells
  have hset : Finset.univ.filter (fun p : Fin NUM_OF_ROWS × Fin NUM_OF_COLS =>
        g0 p.1 p.2 ≠ Color.DEAD ∧ (g.set row col Color.DEAD) p.1 p.2 = Color.DEAD)
      = insert (row, col) (Finset.univ.filter (fun p : Fin NUM_OF_ROWS × Fin NUM_OF_COLS =>
        g0 p.1 p.2 ≠ Color.DEAD ∧ g p.1 p.2 = Color.DEAD)) := by
    ext ⟨r, c⟩
    simp only [Finset.mem_filter, Finset.mem_univ, true_and, Finset.mem_insert, Prod.mk.injEq,
      Grid.set]
    by_cases hp : r = row ∧ c = col
    · obtain ⟨rfl, rfl⟩ := hp
      simp [h0]
    · simp [hp]
  have hnot : (row, col) ∉ Finset.univ.filter (fun p : Fin NUM_OF_ROWS × Fin NUM_OF_COLS =>
        g0 p.1 p.2 ≠ Color.DEAD ∧ g p.1 p.2 = Color.DEAD) := by
    simp [h]
  rw [hset, Finset.card_insert_of_not_mem hnot]

theorem destroyedCells_self (g : Grid) : destroyedCells g g = 0 := by
  unfold destroyedCells
  rw [Finset.card_eq_zero, Finset.filter_eq_empty_iff]
  intro p _ hp
  exact hp.1 hp.2

/-! ### The counter agrees with the array -/

theorem GridInv.set_dead {s t : State} (row : Fin NUM_OF_ROWS) (col : Fin NUM_OF_COLS)
    (h : GridInv s) (hlive : s.brickArray row col ≠ Color.DEAD)
    (hg : t.brickArray = s.brickArray.set row col Color.DEAD)
    (hb : t.bricksRemaining = s.bricksRemaining - 1) : GridInv t := by
  constructor
  · have := countLive_set_dead s.brickArray row col hlive
    rw [hb, hg, h.1]
    omega
  · intro r c hc
    rw [hg]
    unfold Grid.set
    split_ifs
    · rfl
    · exact h.2 r c hc

theorem GridInv.of_eq {s t : State} (h : GridInv s) (hg : t.brickArray = s.brickArray)
    (hb : t.bricksRemaining = s.bricksRemaining) : GridInv t := by
  unfold GridInv at *
  rw [hg, hb]
  exact h

theorem verticalCell_gridInv (row : Fin NUM_OF_ROWS) (s : State) (col : Fin NUM_OF_COLS)
    (h : GridInv s) : GridInv (verticalCell row s col) := by
  rcases verticalCell_cases row s col with h1 | ⟨hlive, h1⟩
  · rw [h1]; exact h
  · rw [h1]; exact h.set_dead row col hlive rfl rfl

theorem horizontalCell_gridInv (row : Fin NUM_OF_ROWS) (s : State) (col : Fin NUM_OF_COLS)
    (h : GridInv s) : GridInv (horizontalCell row s col) := by
  rcases horizontalCell_cases row s col with h1 | ⟨hlive, h1⟩
  · rw [h1]; exact h
  · rw [h1]; exact h.set_dead row col hlive rfl rfl

theorem wallBounce_bricks (s : State) :
    (wallBounce s).brickArray = s.brickArray
      ∧ (wallBounce s).bricksRemaining = s.bricksRemaining ∧ (wallBounce s).score = s.score := by
  unfold wallBounce
  split_ifs <;> exact ⟨rfl, rfl, rfl⟩

theorem topBounce_bricks (s : State) :
    (topBounce s).brickArray = s.brickArray
      ∧ (topBounce s).bricksRemaining = s.bricksRemaining ∧ (topBounce s).score = s.score := by
  unfold topBounce
  split_ifs <;> exact ⟨rfl, rfl, rfl⟩

theorem paddleBounce_bricks (cfg : Config) (s : State) :
    (paddleBounce cfg s).brickArray = s.brickArray
      ∧ (paddleBounce cfg s).bricksRemaining = s.bricksRemaining := by
  unfold paddleBounce
  split_ifs <;> exact ⟨rfl, rfl⟩

theorem paddleBounce_score (cfg : Config) (s : State) :
    (paddleBounce cfg s).score
      = s.score + if paddleContact cfg s then paddleBouncePoints else 0 := by
  unfold paddleBounce
  split_ifs
  · rfl
  · exact (add_zero _).symm

/-- The fields that `movePaddle`, `moveBall` and `loseCheck` leave alone. -/
theorem afterCollisions_bricks (cfg : Config) (dt : ℚ) (s : State) :
    (loseCheck (moveBall dt (movePaddle cfg dt s))).brickArray = s.brickArray
      ∧ (loseCheck (moveBall dt (movePaddle cfg dt s))).bricksRemaining = s.bricksRemaining
      ∧ (loseCheck (moveBall dt (movePaddle cfg dt s))).score = s.score := by
  obtain ⟨x, hx⟩ := movePaddle_eq cfg dt s
  rw [hx]
  unfold loseCheck moveBall
  split_ifs <;> exact ⟨rfl, rfl, rfl⟩

theorem winCheck_bricks (s : State) :
    (winCheck s).brickArray = s.brickArray
      ∧ (winCheck s).bricksRemaining = s.bricksRemaining ∧ (winCheck s).score = s.score := by
  unfold winCheck
  split_ifs <;> exact ⟨rfl, rfl, rfl⟩

theorem collisions_gridInv (cfg : Config) (s : State) (h : GridInv s) :
    GridInv (collisions cfg s) := by
  unfold collisions horizontalBreak verticalBreak
  apply forEachCell_preserves GridInv horizontalCell
    (fun row u col hu => horizontalCell_gridInv row u col hu)
  apply forEachCell_preserves GridInv verticalCell
    (fun row u col hu => verticalCell_gridInv row u col hu)
  refine h.of_eq ?_ ?_
  · rw [(paddleBounce_bricks cfg _).1, (topBounce_bricks _).1, (wallBounce_bricks _).1]
  · rw [(paddleBounce_bricks cfg _).2, (topBounce_bricks _).2.1, (wallBounce_bricks _).2.1]

theorem simulate_gridInv (cfg : Config) (dt : ℚ) (s : State) (h : GridInv s) :
    GridInv (simulate cfg dt s) := by
  have hw : GridInv (winCheck s) := h.of_eq (winCheck_bricks s).1 (winCheck_bricks s).2.1
  unfold simulate
  simp only []
  split_ifs
  · unfold updateBody
    exact (collisions_gridInv cfg _ hw).of_eq (afterCollisions_bricks cfg dt _).1
      (afterCollisions_bricks cfg dt _).2.1
  · exact hw

theorem setBrickArray_gridInv (s : State)
    (h : ∀ (r : Fin NUM_OF_ROWS) (c : Fin NUM_OF_COLS),
      ¬ (2 ≤ c.val ∧ c.val < 11) → s.brickArray r c = Color.DEAD) :
    GridInv (setBrickArray s) := by
  constructor
  · rw [setBrickArray_bricksRemaining]
    unfold countLive
    have hset : Finset.univ.filter (fun p : Fin NUM_OF_ROWS × Fin NUM_OF_COLS =>
          (setBrickArray s).brickArray p.1 p.2 ≠ Color.DEAD)
        = Finset.univ.filter (fun p : Fin NUM_OF_ROWS × Fin NUM_OF_COLS =>
          2 ≤ p.2.val ∧ p.2.val < 11) := by
      apply Finset.filter_congr
      intro p _
      rw [setBrickArray_brickArray]
      by_cases hc : 2 ≤ p.2.val ∧ p.2.val < 11
      · simp only [hc, and_self, if_true, iff_true]
        exact rowColor_ne_dead p.1
      · simp only [hc, if_false, iff_false, not_not]
        exact h p.1 p.2 hc
    rw [hset]
    rfl
  · intro r c hc
    rw [setBrickArray_brickArray, if_neg hc]
    exact h r c hc

theorem initState_gridInv (cfg : Config) : GridInv (initState cfg) :=
  setBrickArray_gridInv _ (fun _ _ _ => rfl)

theorem resetGame_gridInv (s : State) (h : GridInv s) : GridInv (resetGame s) :=
  setBrickArray_gridInv _ h.2

theorem startOrRestart_gridInv (s : State) (e : KeyEvent) (h : GridInv s) :
    GridInv (startOrRestart s e) := by
  unfold startOrRestart
  split_ifs
  · exact h
  · exact (resetGame_gridInv s h).of_eq rfl rfl
  · exact (resetGame_gridInv s h).of_eq rfl rfl
  · exact h

theorem keyPress_gridInv (s t : State) (e : KeyEvent) (h : GridInv s)
    (ht : keyPress s e = some t) : GridInv t := by
  unfold keyPress at ht
  simp only [] at ht
  split_ifs at ht
  injection ht with ht
  subst ht
  have h1 := startOrRestart_gridInv s e h
  have h2 : GridInv (pauseGame (startOrRestart s e) e) := by
    unfold pauseGame
    split_ifs
    · exact h1.of_eq rfl rfl
    · exact h1
  have h3 : GridInv (unpauseGame (pauseGame (startOrRestart s e) e) e) := by
    unfold unpauseGame
    split_ifs
    · exact h2.of_eq rfl rfl
    · exact h2
  unfold arrowDown
  split
  · exact h3.of_eq rfl rfl
  · exact h3.of_eq rfl rfl
  · exact h3

theorem keyRelease_gridInv (s : State) (e : KeyEvent) (h : GridInv s) :
    GridInv (keyRelease s e) := by
  unfold keyRelease
  split
  · exact h.of_eq rfl rfl
  · exact h.of_eq rfl rfl
  · exact h

theorem reachable_gridInv (cfg : Config) (s : State) (h : Reachable cfg s) : GridInv s := by
  induction h with
  | start => exact initState_gridInv cfg
  | keyPress e _ ht ih => exact keyPress_gridInv _ _ e ih ht
  | keyRelease e _ ih => exact keyRelease_gridInv _ e ih
  | simulate dt _ ih => exact simulate_gridInv cfg dt _ ih

/-! ### The counter never grows in an update -/

theorem verticalCell_bricksRemaining_le (row : Fin NUM_OF_ROWS) (s : State)
    (col : Fin NUM_OF_COLS) : (verticalCell row s col).bricksRemaining ≤ s.bricksRemaining := by
  rcases verticalCell_cases row s col with h1 | ⟨_, h1⟩
  · rw [h1]
  · rw [h1]
    show s.bricksRemaining - 1 ≤ s.bricksRemaining
    omega

theorem horizontalCell_bricksRemaining_le (row : Fin NUM_OF_ROWS) (s : State)
    (col : Fin NUM_OF_COLS) : (horizontalCell row s col).bricksRemaining ≤ s.bricksRemaining := by
  rcases horizontalCell_cases row s col with h1 | ⟨_, h1⟩
  · rw [h1]
  · rw [h1]
    show s.bricksRemaining - 1 ≤ s.bricksRemaining
    omega

theorem collisions_bricksRemaining_le (cfg : Config) (s : State) :
    (collisions cfg s).bricksRemaining ≤ s.bricksRemaining := by
  unfold collisions horizontalBreak verticalBreak
  apply forEachCell_preserves (fun t => t.bricksRemaining ≤ s.bricksRemaining) horizontalCell
    (fun row u col hu => le_trans (horizontalCell_bricksRemaining_le row u col) hu)
  apply forEachCell_preserves (fun t => t.bricksRemaining ≤ s.bricksRemaining) verticalCell
    (fun row u col hu => le_trans (verticalCell_bricksRemaining_le row u col) hu)
  show (paddleBounce cfg (topBounce (wallBounce s))).bricksRemaining ≤ s.bricksRemaining
  rw [(paddleBounce_bricks cfg _).2, (topBounce_bricks _).2.1, (wallBounce_bricks _).2.1]

theorem simulate_bricksRemaining_le (cfg : Config) (dt : ℚ) (s : State) :
    (simulate cfg dt s).bricksRemaining ≤ s.bricksRemaining := by
  unfold simulate
  simp only []
  split_ifs
  · unfold updateBody
    rw [(afterCollisions_bricks cfg dt _).2.1]
    exact le_trans (collisions_bricksRemaining_le cfg _) (le_of_eq (winCheck_bricks s).2.1)
  · exact le_of_eq (winCheck_bricks s).2.1

theorem afterSixUpdates_reachable : Reachable defaultConfig afterSixUpdates :=
  Reachable.simulate (1 / 64) (Reachable.simulate (3 / 4) (Reachable.simulate (1 / 4)
    (Reachable.simulate (1 / 4) (Reachable.simulate 4 (Reachable.simulate (17 / 4)
      (Reachable.keyPress spaceKey Reachable.start rfl))))))

/-- The state `afterSixUpdates` in figures: two bricks gone, one paddle bounce scored. -/
theorem afterSixUpdates_values :
    afterSixUpdates.bricksRemaining = 52 ∧ afterSixUpdates.score = 120
      ∧ afterSixUpdates.brickArray 4 10 = Color.DEAD
      ∧ afterSixUpdates.brickArray 5 10 = Color.DEAD
      ∧ isPlaying afterSixUpdates := by
  decide!

/-- C4: in every state reachable from the start of the loop by key presses, key releases and
update steps, `bricksRemaining` is the number of cells of `brickArray` that are not `DEAD`, and
no update step from such a state increases `bricksRemaining`. -/
theorem C4_bricksRemaining_counts_live_cells (cfg : Config) (s : State)
    (h : Reachable cfg s) :
    s.bricksRemaining = countLive s.brickArray
      ∧ ∀ dt : ℚ, (simulate cfg dt s).bricksRemaining ≤ s.bricksRemaining :=
  ⟨(reachable_gridInv cfg s h).1, fun dt => simulate_bricksRemaining_le cfg dt s⟩

/-- C4 at a state reached through six update steps, in which the ball has bounced off the
paddle, the right wall and the top wall and has destroyed two bricks. -/
theorem C4_bricksRemaining_counts_live_cells_witness :
    Reachable defaultConfig afterSixUpdates
      ∧ afterSixUpdates.bricksRemaining = countLive afterSixUpdates.brickArray
      ∧ (simulate defaultConfig (1 / 64) afterSixUpdates).bricksRemaining
          ≤ afterSixUpdates.bricksRemaining :=
  ⟨afterSixUpdates_reachable,
    (C4_bricksRemaining_counts_live_cells defaultConfig afterSixUpdates
      afterSixUpdates_reachable).1,
    (C4_bricksRemaining_counts_live_cells defaultConfig afterSixUpdates
      afterSixUpdates_reachable).2 (1 / 64)⟩

/-! ### Score and counter against the cells destroyed -/

theorem brickAccount_refl (s : State) : BrickAccount s s := by
  refine ⟨fun _ _ => Or.inl rfl, ?_, ?_⟩
  · rw [destroyedCells_self]; simp
  · rw [destroyedCells_self]; simp

theorem BrickAccount.break_cell {s0 t u : State} (row : Fin NUM_OF_ROWS)
    (col : Fin NUM_OF_COLS) (h : BrickAccount s0 t) (hlive : t.brickArray row col ≠ Color.DEAD)
    (hg : u.brickArray = t.brickArray.set row col Color.DEAD)
    (hs : u.score = t.score + destroyBrickPoints)
    (hb : u.bricksRemaining = t.bricksRemaining - 1) : BrickAccount s0 u := by
  obtain ⟨h1, h2, h3⟩ := h
  have hlive0 : s0.brickArray row col ≠ Color.DEAD := by
    rcases h1 row col with he | he
    · rw [← he]; exact hlive
    · exact absurd he hlive
  have hd := destroyedCells_set_dead s0.brickArray t.brickArray row col hlive0 hlive
  refine ⟨?_, ?_, ?_⟩
  · intro r c
    rw [hg]
    unfold Grid.set
    split_ifs
    · exact Or.inr rfl
    · exact h1 r c
  · rw [hs, hg, hd, h2]
    push_cast
    ring
  · rw [hb, hg, hd, h3]
    push_cast
    ring

theorem verticalCell_account (s0 : State) (row : Fin NUM_OF_ROWS) (t : State)
    (col : Fin NUM_OF_COLS) (h : BrickAccount s0 t) : BrickAccount s0 (verticalCell row t col) := by
  rcases verticalCell_cases row t col with h1 | ⟨hlive, h1⟩
  · rw [h1]; exact h
  · rw [h1]; exact h.break_cell row col hlive rfl rfl rfl

theorem horizontalCell_account (s0 : State) (row : Fin NUM_OF_ROWS) (t : State)
    (col : Fin NUM_OF_COLS) (h : BrickAccount s0 t) :
    BrickAccount s0 (horizontalCell row t col) := by
  rcases horizontalCell_cases row t col with h1 | ⟨hlive, h1⟩
  · rw [h1]; exact h
  · rw [h1]; exact h.break_cell row col hlive rfl rfl rfl

/-- The two brick passes, accounted against the state they start from. -/
theorem brickPasses_account (s : State) : BrickAccount s (horizontalBreak (verticalBreak s)) := by
  unfold horizontalBreak verticalBreak
  apply forEachCell_preserves (BrickAccount s) horizontalCell
    (fun row u col hu => horizontalCell_account s row u col hu)
  apply forEachCell_preserves (BrickAccount s) verticalCell
    (fun row u col hu => verticalCell_account s row u col hu)
  exact brickAccount_refl s

/-- The loop body of either pass does nothing at a cell that is `DEAD`. -/
theorem dead_cell_skipped (row : Fin NUM_OF_ROWS) (col : Fin NUM_OF_COLS) (t : State)
    (h : t.brickArray row col = Color.DEAD) :
    verticalCell row t col = t ∧ horizontalCell row t col = t := by
  unfold verticalCell horizontalCell
  simp [h]

theorem simulate_of_guard (cfg : Config) (dt : ℚ) (s : State) (h : updateGuard (winCheck s)) :
    simulate cfg dt s = updateBody cfg dt (winCheck s) := by
  unfold simulate
  exact if_pos h

theorem simulate_of_not_guard (cfg : Config) (dt : ℚ) (s : State)
    (h : ¬ updateGuard (winCheck s)) : simulate cfg dt s = winCheck s := by
  unfold simulate
  exact if_neg h

/-- The score and the counter after an update step, against the cells the step destroyed. -/
theorem simulate_account (cfg : Config) (dt : ℚ) (s : State) :
    (simulate cfg dt s).score
        = s.score
          + destroyBrickPoints * destroyedCells s.brickArray (simulate cfg dt s).brickArray
          + (if paddleBounceFired cfg s then paddleBouncePoints else 0)
      ∧ (simulate cfg dt s).bricksRemaining
        = s.bricksRemaining - destroyedCells s.brickArray (simulate cfg dt s).brickArray
      ∧ (∀ (r : Fin NUM_OF_ROWS) (c : Fin NUM_OF_COLS),
          s.brickArray r c = Color.DEAD → (simulate cfg dt s).brickArray r c = Color.DEAD) := by
  obtain ⟨wg, wb, ws⟩ := winCheck_bricks s
  by_cases hguard : updateGuard (winCheck s)
  · have hfired : paddleBounceFired cfg s
        ↔ paddleContact cfg (topBounce (wallBounce (winCheck s))) := by
      unfold paddleBounceFired
      exact and_iff_right hguard
    obtain ⟨ag, ab, as⟩ := afterCollisions_bricks cfg dt (collisions cfg (winCheck s))
    obtain ⟨h1, h2, h3⟩ :=
      brickPasses_account (paddleBounce cfg (topBounce (wallBounce (winCheck s))))
    have pg : (paddleBounce cfg (topBounce (wallBounce (winCheck s)))).brickArray
        = s.brickArray := by
      rw [(paddleBounce_bricks cfg _).1, (topBounce_bricks _).1, (wallBounce_bricks _).1, wg]
    have pb : (paddleBounce cfg (topBounce (wallBounce (winCheck s)))).bricksRemaining
        = s.bricksRemaining := by
      rw [(paddleBounce_bricks cfg _).2, (topBounce_bricks _).2.1, (wallBounce_bricks _).2.1, wb]
    have ps : (paddleBounce cfg (topBounce (wallBounce (winCheck s)))).score
        = s.score + if paddleBounceFired cfg s then paddleBouncePoints else 0 := by
      rw [paddleBounce_score, (topBounce_bricks _).2.2, (wallBounce_bricks _).2.2, ws]
      simp only [hfired]
    rw [pg] at h1 h2 h3
    rw [pb] at h3
    rw [ps] at h2
    have hcol : collisions cfg (winCheck s)
        = horizontalBreak (verticalBreak (paddleBounce cfg (topBounce (wallBounce (winCheck s))))) :=
      rfl
    rw [← hcol] at h1 h2 h3
    rw [simulate_of_guard cfg dt s hguard]
    unfold updateBody
    rw [as, ab, ag]
    refine ⟨?_, h3, ?_⟩
    · rw [h2]; ring
    · intro r c hdead
      rcases h1 r c with he | he
      · exact he.trans hdead
      · exact he
  · have hfired : ¬ paddleBounceFired cfg s := fun hf => hguard hf.1
    rw [simulate_of_not_guard cfg dt s hguard, ws, wb, wg, destroyedCells_self, if_neg hfired]
    refine ⟨by simp, by simp, fun _ _ hdead => hdead⟩

/-- C6: in every update step the score grows by `destroyBrickPoints` for each cell that went
from live to `DEAD` in that step, plus `paddleBouncePoints` when the paddle bounce fired, and
`bricksRemaining` falls by the number of those cells; a cell that is `DEAD` stays `DEAD`, and
at such a cell the loop body of either brick pass changes nothing. -/
theorem C6_score_counts_destroyed_cells (cfg : Config) (dt : ℚ) (s : State) :
    (simulate cfg dt s).score
        = s.score
          + destroyBrickPoints * destroyedCells s.brickArray (simulate cfg dt s).brickArray
          + (if paddleBounceFired cfg s then paddleBouncePoints else 0)
      ∧ (simulate cfg dt s).bricksRemaining
        = s.bricksRemaining - destroyedCells s.brickArray (simulate cfg dt s).brickArray
      ∧ (∀ (r : Fin NUM_OF_ROWS) (c : Fin NUM_OF_COLS),
          s.brickArray r c = Color.DEAD → (simulate cfg dt s).brickArray r c = Color.DEAD)
      ∧ (∀ (row : Fin NUM_OF_ROWS) (col : Fin NUM_OF_COLS) (t : State),
          t.brickArray row col = Color.DEAD →
            verticalCell row t col = t ∧ horizontalCell row t col = t) := by
  obtain ⟨hscore, hcount, hdead⟩ := simulate_account cfg dt s
  refine ⟨hscore, hcount, hdead, ?_⟩
  intro row col t ht
  exact dead_cell_skipped row col t ht

/-- C6 on the array as `setBrickArray` fills it, score 0, with the ball under the brick
`brickArray[5][2]`: the step destroys that one brick and gives 53 bricks and score 50. -/
theorem C6_score_counts_destroyed_cells_witness :
    ballUnderBrick.bricksRemaining = 54 ∧ ballUnderBrick.score = 0
      ∧ destroyedCells ballUnderBrick.brickArray
          (simulate defaultConfig (1 / 64) ballUnderBrick).brickArray = 1
      ∧ (simulate defaultConfig (1 / 64) ballUnderBrick).bricksRemaining = 53
      ∧ (simulate defaultConfig (1 / 64) ballUnderBrick).score = 50 := by
  have h := C6_score_counts_destroyed_cells defaultConfig (1 / 64) ballUnderBrick
  have hd : destroyedCells ballUnderBrick.brickArray
      (simulate defaultConfig (1 / 64) ballUnderBrick).brickArray = 1 := by decide!
  have hp : ¬ paddleBounceFired defaultConfig ballUnderBrick := by decide!
  have h54 : ballUnderBrick.bricksRemaining = 54 := by decide!
  have h0 : ballUnderBrick.score = 0 := by decide!
  obtain ⟨hs, hb, _, _⟩ := h
  rw [hd, if_neg hp, h0] at hs
  rw [hd, h54] at hb
  exact ⟨h54, h0, hd, by rw [hb]; rfl, by rw [hs]; rfl⟩

/-! ## The paddle bounce -/

theorem updateGuard_winCheck (s : State) : updateGuard (winCheck s) ↔ updateGuard s := by
  constructor
  · intro h
    have hb : s.bricksRemaining > 0 := by
      have := h.2.1
      rw [(winCheck_bricks s).2.1] at this
      exact this
    rw [winCheck_of_bricks s hb] at h
    exact h
  · intro h
    rw [winCheck_of_bricks s h.2.1]
    exact h

theorem topBounce_cases (s : State) :
    topBounce s = s
      ∨ (s.ballY - BALL_DIAMETER / 2 ≤ 0
          ∧ topBounce s = { s with ballDirY := toShort (-1 * s.ballDirY) }) := by
  unfold topBounce
  split_ifs with h
  · exact Or.inr ⟨h.1, rfl⟩
  · exact Or.inl rfl

/-- The wall and top reflections do not change the outcome of the paddle test: the first
assigns `ballDir.x` only, the second acts at the top of the screen only. -/
theorem paddleContact_after_reflections (cfg : Config) (s : State) :
    paddleContact cfg (topBounce (wallBounce s)) ↔ paddleContact cfg s := by
  obtain ⟨d, hd⟩ := wallBounce_eq s
  rw [hd]
  rcases topBounce_cases { s with ballDirX := d } with h | ⟨htop, h⟩
  · rw [h]
    unfold paddleContact
    exact Iff.rfl
  · rw [h]
    have hy : s.ballY - BALL_DIAMETER / 2 ≤ 0 := htop
    unfold paddleContact
    constructor
    · intro hc
      have h1 : s.ballY + BALL_DIAMETER / 2 ≥ INITIAL_PADDLE_Y := hc.1
      unfold BALL_DIAMETER INITIAL_PADDLE_Y SCREEN_HEIGHT at *
      norm_num at h1 hy
      linarith
    · intro hc
      have h1 : s.ballY + BALL_DIAMETER / 2 ≥ INITIAL_PADDLE_Y := hc.1
      unfold BALL_DIAMETER INITIAL_PADDLE_Y SCREEN_HEIGHT at *
      norm_num at h1 hy
      linarith

theorem paddleBounceFired_iff (cfg : Config) (s : State) :
    paddleBounceFired cfg s ↔ updateGuard s ∧ paddleContact cfg s := by
  unfold paddleBounceFired
  constructor
  · intro h
    have hg := (updateGuard_winCheck s).mp h.1
    have hc := h.2
    rw [winCheck_of_bricks s hg.2.1] at hc
    exact ⟨hg, (paddleContact_after_reflections cfg s).mp hc⟩
  · intro h
    refine ⟨(updateGuard_winCheck s).mpr h.1, ?_⟩
    rw [winCheck_of_bricks s h.1.2.1]
    exact (paddleContact_after_reflections cfg s).mpr h.2

/-- What the reflections and the brick passes make of a state that passes the paddle test:
`ballDir.x` may have been reflected by a wall, `ballDir.y` is negated, the score has grown by
`paddleBouncePoints`, and no brick is touched. -/
theorem collisions_of_paddleContact (cfg : Config) (s : State) (hc : paddleContact cfg s) :
    ∃ d, collisions cfg s
      = { s with
          ballDirX := d
          ballDirY := toShort (-1 * s.ballDirY)
          score := s.score + paddleBouncePoints } := by
  obtain ⟨d, hd⟩ := wallBounce_eq s
  have hy : (325 / 2 : ℚ) < s.ballY := by
    have h1 : s.ballY + BALL_DIAMETER / 2 ≥ INITIAL_PADDLE_Y := hc.1
    unfold BALL_DIAMETER INITIAL_PADDLE_Y SCREEN_HEIGHT at h1
    norm_num at h1
    linarith
  have htop : topBounce { s with ballDirX := d } = { s with ballDirX := d } := by
    rcases topBounce_cases { s with ballDirX := d } with h | ⟨h0, _⟩
    · exact h
    · exfalso
      have h0' : s.ballY - BALL_DIAMETER / 2 ≤ 0 := h0
      unfold BALL_DIAMETER at h0'
      linarith
  have hc2 : paddleContact cfg { s with ballDirX := d } := hc
  have hpad : paddleBounce cfg { s with ballDirX := d }
      = { s with
          ballDirX := d
          ballDirY := toShort (-1 * s.ballDirY)
          score := s.score + paddleBouncePoints } := by
    unfold paddleBounce
    rw [if_pos hc2]
  refine ⟨d, ?_⟩
  unfold collisions
  rw [hd, htop, hpad, verticalBreak_of_below _ (by exact hy),
    horizontalBreak_of_below _ (by exact hy)]

/-- The update step of a state that passes the guard and the paddle test. -/
theorem simulate_of_paddleContact (cfg : Config) (dt : ℚ) (s : State) (hg : updateGuard s)
    (hc : paddleContact cfg s) :
    (simulate cfg dt s).ballDirY = toShort (-1 * s.ballDirY)
      ∧ (simulate cfg dt s).score = s.score + paddleBouncePoints := by
  rw [simulate_of_guard cfg dt s ((updateGuard_winCheck s).mpr hg), winCheck_of_bricks s hg.2.1]
  obtain ⟨d, hd⟩ := collisions_of_paddleContact cfg s hc
  unfold updateBody
  rw [(loseCheck_ballDir _).2, (afterCollisions_bricks cfg dt _).2.2, hd]
  obtain ⟨x, hx⟩ := movePaddle_eq cfg dt
    { s with
      ballDirX := d
      ballDirY := toShort (-1 * s.ballDirY)
      score := s.score + paddleBouncePoints }
  rw [hx]
  exact ⟨rfl, rfl⟩

/-! ### No paddle bounce in two consecutive update steps -/

/-- After an update step in which the paddle bounce fired, `ballDir.y` is negative. -/
theorem ballDirY_neg_after_bounce (cfg : Config) (dt : ℚ) (s : State)
    (hshort : InShort s.ballDirY) (hf : paddleBounceFired cfg s) :
    (simulate cfg dt s).ballDirY < 0 := by
  obtain ⟨hg, hc⟩ := (paddleBounceFired_iff cfg s).mp hf
  rw [(simulate_of_paddleContact cfg dt s hg hc).1]
  have hpos : s.ballDirY > 0 := hc.2.2.2.2
  obtain ⟨_, h2⟩ := hshort
  unfold toShort
  omega

/-- C15 (amended): the paddle bounce never fires in two consecutive update steps: when an
update step passes the paddle test, it leaves `ballDir.y` negative, and the next update step,
whatever the elapsed times, fails the test, which requires `ballDir.y > 0`; the second step
adds no `paddleBouncePoints`. -/
theorem C15_no_bounce_on_next_step (cfg : Config) (dt1 dt2 : ℚ) (s : State)
    (hshort : InShort s.ballDirY) (hf : paddleBounceFired cfg s) :
    ¬ paddleBounceFired cfg (simulate cfg dt1 s)
      ∧ (simulate cfg dt2 (simulate cfg dt1 s)).score
          = (simulate cfg dt1 s).score
            + destroyBrickPoints * destroyedCells (simulate cfg dt1 s).brickArray
                (simulate cfg dt2 (simulate cfg dt1 s)).brickArray := by
  have hneg := ballDirY_neg_after_bounce cfg dt1 s hshort hf
  have hnot : ¬ paddleBounceFired cfg (simulate cfg dt1 s) := by
    intro h2
    have hpos : (simulate cfg dt1 s).ballDirY > 0 :=
      ((paddleBounceFired_iff cfg _).mp h2).2.2.2.2.2
    omega
  refine ⟨hnot, ?_⟩
  have h := (simulate_account cfg dt2 (simulate cfg dt1 s)).1
  rw [if_neg hnot, add_zero] at h
  exact h

/-- C15 (fails as stated): there are no state and elapsed times such that two consecutive update
steps both pass the paddle test. -/
theorem C15_no_two_consecutive_bounces :
    ¬ ∃ (cfg : Config) (s : State) (dt1 dt2 : ℚ),
        0 ≤ dt1 ∧ 0 ≤ dt2 ∧ InShort s.ballDirY
          ∧ paddleBounceFired cfg s ∧ paddleBounceFired cfg (simulate cfg dt1 s) := by
  rintro ⟨cfg, s, dt1, _, _, _, hshort, hf, hf2⟩
  have hneg := ballDirY_neg_after_bounce cfg dt1 s hshort hf
  have hpos : (simulate cfg dt1 s).ballDirY > 0 :=
    ((paddleBounceFired_iff cfg _).mp hf2).2.2.2.2.2
  omega

/-- C15 (amended) at a ball on the paddle, with two steps of 1/64 s: the first step scores
the bounce, the second does not. -/
theorem C15_no_bounce_on_next_step_witness :
    InShort ballOnPaddle.ballDirY
      ∧ paddleBounceFired defaultConfig ballOnPaddle
      ∧ ¬ paddleBounceFired defaultConfig (simulate defaultConfig (1 / 64) ballOnPaddle)
      ∧ (simulate defaultConfig (1 / 64) (simulate defaultConfig (1 / 64) ballOnPaddle)).score
          = (simulate defaultConfig (1 / 64) ballOnPaddle).score
            + destroyBrickPoints
              * destroyedCells (simulate defaultConfig (1 / 64) ballOnPaddle).brickArray
                (simulate defaultConfig (1 / 64)
                  (simulate defaultConfig (1 / 64) ballOnPaddle)).brickArray :=
  ⟨by decide!, by decide!,
    (C15_no_bounce_on_next_step defaultConfig (1 / 64) (1 / 64) ballOnPaddle
      (by decide!) (by decide!)).1,
    (C15_no_bounce_on_next_step defaultConfig (1 / 64) (1 / 64) ballOnPaddle
      (by decide!) (by decide!)).2⟩

/-- The two steps of the witness in figures: after the first step the lower edge of the ball
is still inside the paddle band and the ball is still over the paddle, but `ballDir.y` is
negative; the first step scores 20, the second nothing. -/
theorem ballOnPaddle_two_steps :
    (simulate defaultConfig (1 / 64) ballOnPaddle).score = 20
      ∧ (simulate defaultConfig (1 / 64) ballOnPaddle).ballDirY = -150
      ∧ (simulate defaultConfig (1 / 64) ballOnPaddle).ballY + BALL_DIAMETER / 2
          ≥ INITIAL_PADDLE_Y
      ∧ (simulate defaultConfig (1 / 64) ballOnPaddle).ballY + BALL_DIAMETER / 2
          ≤ INITIAL_PADDLE_Y + PADDLE_HEIGHT
      ∧ (simulate defaultConfig (1 / 64) ballOnPaddle).ballX + BALL_DIAMETER / 2
          ≥ (simulate defaultConfig (1 / 64) ballOnPaddle).paddleX
      ∧ (simulate defaultConfig (1 / 64) ballOnPaddle).ballX
          ≤ (simulate defaultConfig (1 / 64) ballOnPaddle).paddleX + defaultConfig.paddleLength
      ∧ (simulate defaultConfig (1 / 64) (simulate defaultConfig (1 / 64) ballOnPaddle)).score
          = 20 := by
  decide!

/-! ## Outside a running game -/

theorem winCheck_cases (s : State) :
    winCheck s = s ∨ winCheck s = { s with gameWon := true } := by
  unfold winCheck
  split_ifs
  · exact Or.inr rfl
  · exact Or.inl rfl

theorem not_updateGuard_winCheck (s : State) (h : ¬ isPlaying s) :
    ¬ updateGuard (winCheck s) := by
  intro hg
  have hs := (updateGuard_winCheck s).mp hg
  exact h ⟨hs.1, hs.2.2.1, hs.2.2.2.1, hs.2.2.2.2⟩

/-- Outside a running game the simulation part of a loop iteration is the win check alone. -/
theorem simulate_of_not_playing (cfg : Config) (dt : ℚ) (s : State) (h : ¬ isPlaying s) :
    simulate cfg dt s = s ∨ simulate cfg dt s = { s with gameWon := true } := by
  rw [simulate_of_not_guard cfg dt s (not_updateGuard_winCheck s h)]
  exact winCheck_cases s

/-- C12: in a state that is not a running game (splash screen, paused, won or lost) the
simulation part of a loop iteration leaves the ball position, the ball velocity, the paddle
position, the score, the brick array and `bricksRemaining` unchanged, whatever the elapsed
time and the movement flags. -/
theorem C12_no_simulation_outside_play (cfg : Config) (dt : ℚ) (s : State)
    (h : ¬ isPlaying s) :
    (simulate cfg dt s).ballX = s.ballX
      ∧ (simulate cfg dt s).ballY = s.ballY
      ∧ (simulate cfg dt s).ballDirX = s.ballDirX
      ∧ (simulate cfg dt s).ballDirY = s.ballDirY
      ∧ (simulate cfg dt s).paddleX = s.paddleX
      ∧ (simulate cfg dt s).score = s.score
      ∧ (simulate cfg dt s).brickArray = s.brickArray
      ∧ (simulate cfg dt s).bricksRemaining = s.bricksRemaining := by
  rcases simulate_of_not_playing cfg dt s h with h1 | h1
  · rw [h1]
    exact ⟨rfl, rfl, rfl, rfl, rfl, rfl, rfl, rfl⟩
  · rw [h1]
    exact ⟨rfl, rfl, rfl, rfl, rfl, rfl, rfl, rfl⟩

/-- C12 at a paused game with the right arrow key held down and an elapsed time of 3 s. -/
theorem C12_no_simulation_outside_play_witness :
    ¬ isPlaying pausedState
      ∧ pausedState.paddleRight = true
      ∧ (simulate defaultConfig 3 pausedState).ballX = pausedState.ballX
      ∧ (simulate defaultConfig 3 pausedState).ballY = pausedState.ballY
      ∧ (simulate defaultConfig 3 pausedState).ballDirX = pausedState.ballDirX
      ∧ (simulate defaultConfig 3 pausedState).ballDirY = pausedState.ballDirY
      ∧ (simulate defaultConfig 3 pausedState).paddleX = pausedState.paddleX
      ∧ (simulate defaultConfig 3 pausedState).score = pausedState.score
      ∧ (simulate defaultConfig 3 pausedState).brickArray = pausedState.brickArray
      ∧ (simulate defaultConfig 3 pausedState).bricksRemaining = pausedState.bricksRemaining :=
  ⟨by decide!, by decide!,
    C12_no_simulation_outside_play defaultConfig 3 pausedState (by decide!)⟩

/-! ## The pause key -/

theorem lostAfterWallBounce_reachable : Reachable defaultConfig lostAfterWallBounce :=
  Reachable.simulate (21 / 4) (Reachable.simulate (1 / 4) (Reachable.simulate (1 / 4)
    (Reachable.simulate 4 (Reachable.simulate (17 / 4)
      (Reachable.keyPress spaceKey Reachable.start rfl)))))

/-- The state `lostAfterWallBounce` in figures. -/
theorem lostAfterWallBounce_values :
    isLost lostAfterWallBounce
      ∧ lostAfterWallBounce.gamePaused = false
      ∧ lostAfterWallBounce.ballX = 425 ∧ lostAfterWallBounce.ballY = 800
      ∧ lostAfterWallBounce.ballDirX = -150 ∧ lostAfterWallBounce.ballDirY = 150
      ∧ lostAfterWallBounce.score = 20 ∧ lostAfterWallBounce.bricksRemaining = 54 := by
  decide!

theorem keyPress_pKey (s : State) : keyPress s pKey = some { s with gamePaused := true } := by
  cases hp : s.gamePaused
  · simp [keyPress, pKey, startOrRestart, pauseGame, unpauseGame, arrowDown, hp]
  · have hs : s = { s with gamePaused := true } := by
      cases s
      simp_all
    simp [keyPress, pKey, startOrRestart, pauseGame, unpauseGame, arrowDown, hp]
    exact hs

/-- C13 (fails as stated): on the splash screen, in a lost game and in a won game, each with the
paused flag clear, the key `p` sets the paused flag; in the won game the pause text is then
drawn as well. -/
theorem C13_pause_outside_play :
    ((initState defaultConfig).showSplash = true
        ∧ (initState defaultConfig).gamePaused = false
        ∧ (keyPress (initState defaultConfig) pKey).map (fun t => t.gamePaused) = some true)
      ∧ (isLost lostAfterWallBounce
        ∧ lostAfterWallBounce.gamePaused = false
        ∧ (keyPress lostAfterWallBounce pKey).map (fun t => t.gamePaused) = some true)
      ∧ (isWon wonState
        ∧ wonState.gamePaused = false
        ∧ (keyPress wonState pKey).map (fun t => t.gamePaused) = some true
        ∧ (keyPress wonState pKey).map (fun t => decide (isPaused t)) = some true) := by
  decide!

/-- C13 (amended): in every state, whatever the phase, the key `p` sets the paused flag and
changes nothing else (a state whose flag is already set is left as it is); a running game
thereby becomes a paused one. -/
theorem C13_pause_sets_flag (s : State) :
    keyPress s pKey = some { s with gamePaused := true }
      ∧ (isPlaying s → isPaused { s with gamePaused := true }) :=
  ⟨keyPress_pKey s, fun h => ⟨rfl, h.1, h.2.2.2⟩⟩

/-- C13 (amended) at a started game. -/
theorem C13_pause_sets_flag_witness :
    isPlaying startedState
      ∧ keyPress startedState pKey = some { startedState with gamePaused := true }
      ∧ isPaused { startedState with gamePaused := true } :=
  ⟨by decide!, (C13_pause_sets_flag startedState).1,
    (C13_pause_sets_flag startedState).2 (by decide!)⟩

/-! ## Restart and the velocity of the ball -/

theorem resetGame_ballDir (s : State) :
    (resetGame s).ballDirX = s.ballDirX ∧ (resetGame s).ballDirY = s.ballDirY := by
  unfold resetGame
  rw [setBrickArray_rest]
  exact ⟨rfl, rfl⟩

theorem startOrRestart_ballDir (s : State) (e : KeyEvent) :
    (startOrRestart s e).ballDirX = s.ballDirX ∧ (startOrRestart s e).ballDirY = s.ballDirY := by
  unfold startOrRestart
  split_ifs
  · exact ⟨rfl, rfl⟩
  · exact resetGame_ballDir s
  · exact resetGame_ballDir s
  · exact ⟨rfl, rfl⟩

/-- No key press assigns `ballDir`. -/
theorem keyPress_ballDir (s t : State) (e : KeyEvent) (ht : keyPress s e = some t) :
    t.ballDirX = s.ballDirX ∧ t.ballDirY = s.ballDirY := by
  unfold keyPress at ht
  simp only [] at ht
  split_ifs at ht
  injection ht with ht
  subst ht
  have h1 := startOrRestart_ballDir s e
  have h2 : (pauseGame (startOrRestart s e) e).ballDirX = s.ballDirX
      ∧ (pauseGame (startOrRestart s e) e).ballDirY = s.ballDirY := by
    unfold pauseGame
    split_ifs
    · exact h1
    · exact h1
  have h3 : (unpauseGame (pauseGame (startOrRestart s e) e) e).ballDirX = s.ballDirX
      ∧ (unpauseGame (pauseGame (startOrRestart s e) e) e).ballDirY = s.ballDirY := by
    unfold unpauseGame
    split_ifs
    · exact h2
    · exact h2
  unfold arrowDown
  split
  · exact h3
  · exact h3
  · exact h3

theorem keyRelease_ballDir (s : State) (e : KeyEvent) :
    (keyRelease s e).ballDirX = s.ballDirX ∧ (keyRelease s e).ballDirY = s.ballDirY := by
  unfold keyRelease
  split
  · exact ⟨rfl, rfl⟩
  · exact ⟨rfl, rfl⟩
  · exact ⟨rfl, rfl⟩

theorem initState_ballDir (cfg : Config) :
    (initState cfg).ballDirX = doubleToShort cfg.ballSpeed
      ∧ (initState cfg).ballDirY = doubleToShort cfg.ballSpeed := by
  unfold initState
  rw [setBrickArray_rest]
  exact ⟨rfl, rfl⟩

/-- In every reachable state each component of `ballDir` has the magnitude it started with. -/
theorem reachable_speed (cfg : Config) (s : State) (h : Reachable cfg s) :
    SpeedIs |doubleToShort cfg.ballSpeed| |doubleToShort cfg.ballSpeed| s := by
  induction h with
  | start =>
    obtain ⟨hx, hy⟩ := initState_ballDir cfg
    unfold SpeedIs
    rw [hx, hy]
    exact ⟨rfl, rfl, toShort_inShort _, toShort_inShort _⟩
  | keyPress e _ ht ih =>
    obtain ⟨hx, hy⟩ := keyPress_ballDir _ _ e ht
    exact ih.of_dir hx hy
  | keyRelease e _ ih =>
    obtain ⟨hx, hy⟩ := keyRelease_ballDir _ e
    exact ih.of_dir hx hy
  | simulate dt _ ih => exact simulate_speed cfg dt ih

theorem initState_values (cfg : Config) :
    (initState cfg).score = 0 ∧ (initState cfg).bricksRemaining = 54
      ∧ (initState cfg).ballX = INITIAL_BALL_X ∧ (initState cfg).ballY = INITIAL_BALL_Y
      ∧ (initState cfg).paddleX = INITIAL_PADDLE_X := by
  refine ⟨?_, setBrickArray_bricksRemaining _, ?_, ?_, ?_⟩
  all_goals
    unfold initState
    rw [setBrickArray_rest]

/-- After `setBrickArray` the array of a reachable state is the array of the initial state. -/
theorem resetGame_brickArray (cfg : Config) (s : State) (h : GridInv s) :
    (resetGame s).brickArray = (initState cfg).brickArray := by
  funext r c
  unfold resetGame initState
  rw [setBrickArray_brickArray, setBrickArray_brickArray]
  by_cases hc : 2 ≤ c.val ∧ c.val < 11
  · rw [if_pos hc, if_pos hc]
  · rw [if_neg hc, if_neg hc]
    exact h.2 r c hc

/-- C14 (fails as stated): a lost game reached from the start, in which the ball bounced off
the right wall before it fell; the space bar restarts the game with `ballDir.x = -150`, whereas
the initial value is `ballSpeed = 150`. -/
theorem C14_restart_keeps_velocity :
    Reachable defaultConfig lostAfterWallBounce
      ∧ isLost lostAfterWallBounce
      ∧ (keyPress lostAfterWallBounce spaceKey).map (fun t => t.ballDirX) = some (-150)
      ∧ (keyPress lostAfterWallBounce spaceKey).map (fun t => t.ballDirY) = some 150
      ∧ (keyPress lostAfterWallBounce spaceKey).map (fun t => decide (isPlaying t)) = some true
      ∧ defaultConfig.ballSpeed = 150
      ∧ (initState defaultConfig).ballDirX = 150
      ∧ (initState defaultConfig).ballDirY = 150 :=
  ⟨lostAfterWallBounce_reachable, by decide!⟩

/-- C14 (amended): from a reachable won or lost game the restart command leaves both components
of the ball's velocity as they were, so each is the initial value or its negative; the
restarted state equals the initial state in score, `bricksRemaining`, brick array, ball position
and paddle position. -/
theorem C14_restart_resets_all_but_velocity (cfg : Config) (s : State)
    (hr : Reachable cfg s) (h : isWon s ∨ isLost s) :
    ∃ t, keyPress s spaceKey = some t
      ∧ t.ballDirX = s.ballDirX ∧ t.ballDirY = s.ballDirY
      ∧ |t.ballDirX| = |(initState cfg).ballDirX| ∧ |t.ballDirY| = |(initState cfg).ballDirY|
      ∧ t.score = (initState cfg).score
      ∧ t.bricksRemaining = (initState cfg).bricksRemaining
      ∧ t.brickArray = (initState cfg).brickArray
      ∧ t.ballX = (initState cfg).ballX ∧ t.ballY = (initState cfg).ballY
      ∧ t.paddleX = (initState cfg).paddleX := by
  obtain ⟨i1, i2, i3, i4, i5⟩ := initState_values cfg
  obtain ⟨ix, iy⟩ := initState_ballDir cfg
  obtain ⟨sx, sy, _, _⟩ := reachable_speed cfg s hr
  obtain ⟨rx, ry⟩ := resetGame_ballDir s
  have hgrid := resetGame_brickArray cfg s (reachable_gridInv cfg s hr)
  refine ⟨_, keyPress_space_restart s h, ?_, ?_, ?_, ?_, ?_, ?_, ?_, ?_, ?_, ?_⟩
  · exact rx
  · exact ry
  · show |(resetGame s).ballDirX| = _
    rw [rx, sx, ix]
  · show |(resetGame s).ballDirY| = _
    rw [ry, sy, iy]
  · show (resetGame s).score = _
    rw [i1]; unfold resetGame; rw [setBrickArray_rest]
  · show (resetGame s).bricksRemaining = _
    rw [i2]; exact setBrickArray_bricksRemaining _
  · exact hgrid
  · show (resetGame s).ballX = _
    rw [i3]; unfold resetGame; rw [setBrickArray_rest]
  · show (resetGame s).ballY = _
    rw [i4]; unfold resetGame; rw [setBrickArray_rest]
  · show (resetGame s).paddleX = _
    rw [i5]; unfold resetGame; rw [setBrickArray_rest]

/-- C14 (amended) at the lost game in which the ball moves to the left. -/
theorem C14_restart_resets_all_but_velocity_witness :
    Reachable defaultConfig lostAfterWallBounce
      ∧ (isWon lostAfterWallBounce ∨ isLost lostAfterWallBounce)
      ∧ ∃ t, keyPress lostAfterWallBounce spaceKey = some t
        ∧ t.ballDirX = lostAfterWallBounce.ballDirX ∧ t.ballDirY = lostAfterWallBounce.ballDirY
        ∧ |t.ballDirX| = |(initState defaultConfig).ballDirX|
        ∧ |t.ballDirY| = |(initState defaultConfig).ballDirY|
        ∧ t.score = (initState defaultConfig).score
        ∧ t.bricksRemaining = (initState defaultConfig).bricksRemaining
        ∧ t.brickArray = (initState defaultConfig).brickArray
        ∧ t.ballX = (initState defaultConfig).ballX ∧ t.ballY = (initState defaultConfig).ballY
        ∧ t.paddleX = (initState defaultConfig).paddleX :=
  ⟨lostAfterWallBounce_reachable, Or.inr (by decide!),
    C14_restart_resets_all_but_velocity defaultConfig lostAfterWallBounce
      lostAfterWallBounce_reachable (Or.inr (by decide!))⟩

/-! ## The paddle at the edges of the screen -/

theorem paddlePastLeftEdge_stays :
    (simulate defaultConfig (1 / 64) paddlePastLeftEdge).paddleX = paddlePastLeftEdge.paddleX := by
  decide!

/-! ## Losing -/

/-- C10 (amended), the other direction, at the started game: after an update step of 1/64 s
the ball is above the boundary and the game is still running. -/
theorem startedState_short_step :
    (simulate defaultConfig (1 / 64) startedState).ballY < SCREEN_HEIGHT
      ∧ isPlaying (simulate defaultConfig (1 / 64) startedState) := by
  decide!

/-! ## The paddle test, read off the update step -/

theorem simulate_of_paddleContact_brickArray (cfg : Config) (dt : ℚ) (s : State)
    (hg : updateGuard s) (hc : paddleContact cfg s) :
    (simulate cfg dt s).brickArray = s.brickArray := by
  rw [simulate_of_guard cfg dt s ((updateGuard_winCheck s).mpr hg), winCheck_of_bricks s hg.2.1]
  obtain ⟨d, hd⟩ := collisions_of_paddleContact cfg s hc
  unfold updateBody
  rw [(afterCollisions_bricks cfg dt _).1, hd]

theorem ballReachesPaddle_reachable : Reachable defaultConfig ballReachesPaddle :=
  Reachable.simulate (17 / 4) (Reachable.keyPress spaceKey Reachable.start rfl)

theorem ballPastRightEnd_reachable : Reachable defaultConfig ballPastRightEnd :=
  Reachable.simulate (35 / 8) (Reachable.keyPress spaceKey Reachable.start rfl)

theorem ballLowInBand_reachable : Reachable defaultConfig ballLowInBand :=
  Reachable.simulate (17 / 4) (Reachable.keyRelease rightArrowKey
    (Reachable.simulate (1 / 4) (Reachable.keyPress rightArrowKey
      (Reachable.keyPress spaceKey Reachable.start rfl) rfl)))

/-- The three states of the paddle test in figures. -/
theorem paddleTestStates_values :
    (ballReachesPaddle.ballX = 1375 / 2 ∧ ballReachesPaddle.ballY = 1375 / 2
        ∧ ballReachesPaddle.paddleX = 625 ∧ ballReachesPaddle.ballDirY = 150)
      ∧ (ballPastRightEnd.ballX = 2825 / 4 ∧ ballPastRightEnd.ballY = 2825 / 4
        ∧ ballPastRightEnd.paddleX = 625 ∧ ballPastRightEnd.ballDirY = 150)
      ∧ (ballLowInBand.ballX = 725 ∧ ballLowInBand.ballY = 725
        ∧ ballLowInBand.paddleX = 675 ∧ ballLowInBand.ballDirY = 150) := by
  decide!

/-- C11 (fails as stated): two running games, both reached from the start, in which the ball
moves downward and both its vertical and its horizontal extent overlap those of the paddle, yet
the update step neither negates `ballDir.y` nor adds points: in the first the lower edge of the
ball (737.5) is under the paddle band 700..720 while its upper edge (712.5) is inside; in the
second the centre of the ball (706.25) is right of the paddle's right end (705) while its left
edge (693.75) is not. -/
theorem C11_overlap_without_bounce :
    (Reachable defaultConfig ballLowInBand ∧ Reachable defaultConfig ballPastRightEnd)
      ∧ (updateGuard ballLowInBand
        ∧ ballLowInBand.ballDirY > 0
        ∧ ballLowInBand.ballY - BALL_DIAMETER / 2 ≤ INITIAL_PADDLE_Y + PADDLE_HEIGHT
        ∧ INITIAL_PADDLE_Y ≤ ballLowInBand.ballY + BALL_DIAMETER / 2
        ∧ ballLowInBand.ballX - BALL_DIAMETER / 2
            ≤ ballLowInBand.paddleX + defaultConfig.paddleLength
        ∧ ballLowInBand.paddleX ≤ ballLowInBand.ballX + BALL_DIAMETER / 2
        ∧ (simulate defaultConfig (1 / 64) ballLowInBand).ballDirY = ballLowInBand.ballDirY
        ∧ (simulate defaultConfig (1 / 64) ballLowInBand).score = ballLowInBand.score)
      ∧ (updateGuard ballPastRightEnd
        ∧ ballPastRightEnd.ballDirY > 0
        ∧ ballPastRightEnd.ballY - BALL_DIAMETER / 2 ≤ INITIAL_PADDLE_Y + PADDLE_HEIGHT
        ∧ INITIAL_PADDLE_Y ≤ ballPastRightEnd.ballY + BALL_DIAMETER / 2
        ∧ ballPastRightEnd.ballX - BALL_DIAMETER / 2
            ≤ ballPastRightEnd.paddleX + defaultConfig.paddleLength
        ∧ ballPastRightEnd.paddleX ≤ ballPastRightEnd.ballX + BALL_DIAMETER / 2
        ∧ (simulate defaultConfig (1 / 64) ballPastRightEnd).ballDirY
            = ballPastRightEnd.ballDirY
        ∧ (simulate defaultConfig (1 / 64) ballPastRightEnd).score
            = ballPastRightEnd.score) :=
  ⟨⟨ballLowInBand_reachable, ballPastRightEnd_reachable⟩, by decide!⟩

/-- C11 (amended): in every update step (a state that passes the guard of line 417) the step
awards `paddleBouncePoints` on top of the points of the bricks it destroys if and only if the
ball moves downward, the lower edge of the ball `ballY + r` lies in the paddle band
`[paddleY, paddleY + PADDLE_HEIGHT]`, the right edge of the ball `ballX + r` is at or right of
`paddleX`, and the centre of the ball `ballX` is at or left of `paddleX + paddleLength`.  When
these hold the step negates `ballDir.y`, adds exactly `paddleBouncePoints` and destroys no
brick; when they do not, the step adds the points of the destroyed bricks only. -/
theorem C11_paddle_bounce_condition (cfg : Config) (dt : ℚ) (s : State) (hg : updateGuard s) :
    ((simulate cfg dt s).score
          = s.score
            + destroyBrickPoints * destroyedCells s.brickArray (simulate cfg dt s).brickArray
            + paddleBouncePoints
        ↔ (s.ballDirY > 0
          ∧ INITIAL_PADDLE_Y ≤ s.ballY + BALL_DIAMETER / 2
          ∧ s.ballY + BALL_DIAMETER / 2 ≤ INITIAL_PADDLE_Y + PADDLE_HEIGHT
          ∧ s.paddleX ≤ s.ballX + BALL_DIAMETER / 2
          ∧ s.ballX ≤ s.paddleX + cfg.paddleLength))
      ∧ ((s.ballDirY > 0
          ∧ INITIAL_PADDLE_Y ≤ s.ballY + BALL_DIAMETER / 2
          ∧ s.ballY + BALL_DIAMETER / 2 ≤ INITIAL_PADDLE_Y + PADDLE_HEIGHT
          ∧ s.paddleX ≤ s.ballX + BALL_DIAMETER / 2
          ∧ s.ballX ≤ s.paddleX + cfg.paddleLength) →
          (simulate cfg dt s).ballDirY = toShort (-1 * s.ballDirY)
            ∧ (simulate cfg dt s).score = s.score + paddleBouncePoints
            ∧ (simulate cfg dt s).brickArray = s.brickArray)
      ∧ (¬ (s.ballDirY > 0
          ∧ INITIAL_PADDLE_Y ≤ s.ballY + BALL_DIAMETER / 2
          ∧ s.ballY + BALL_DIAMETER / 2 ≤ INITIAL_PADDLE_Y + PADDLE_HEIGHT
          ∧ s.paddleX ≤ s.ballX + BALL_DIAMETER / 2
          ∧ s.ballX ≤ s.paddleX + cfg.paddleLength) →
          (simulate cfg dt s).score
            = s.score
              + destroyBrickPoints
                * destroyedCells s.brickArray (simulate cfg dt s).brickArray) := by
  have hcond : paddleContact cfg s ↔ (s.ballDirY > 0
      ∧ INITIAL_PADDLE_Y ≤ s.ballY + BALL_DIAMETER / 2
      ∧ s.ballY + BALL_DIAMETER / 2 ≤ INITIAL_PADDLE_Y + PADDLE_HEIGHT
      ∧ s.paddleX ≤ s.ballX + BALL_DIAMETER / 2
      ∧ s.ballX ≤ s.paddleX + cfg.paddleLength) := by
    unfold paddleContact
    constructor
    · rintro ⟨h1, h2, h3, h4, h5⟩
      exact ⟨h5, h1, h2, h3, h4⟩
    · rintro ⟨h5, h1, h2, h3, h4⟩
      exact ⟨h1, h2, h3, h4, h5⟩
  have hfired : paddleBounceFired cfg s ↔ paddleContact cfg s := by
    rw [paddleBounceFired_iff]
    exact and_iff_right hg
  have hscore := (simulate_account cfg dt s).1
  rw [← hcond]
  by_cases hc : paddleContact cfg s
  · rw [if_pos (hfired.mpr hc)] at hscore
    refine ⟨iff_of_true hscore hc, ?_, fun hn => absurd hc hn⟩
    intro _
    exact ⟨(simulate_of_paddleContact cfg dt s hg hc).1,
      (simulate_of_paddleContact cfg dt s hg hc).2,
      simulate_of_paddleContact_brickArray cfg dt s hg hc⟩
  · rw [if_neg (fun h => hc (hfired.mp h)), add_zero] at hscore
    refine ⟨iff_of_false ?_ hc, fun h => absurd h hc, fun _ => hscore⟩
    rw [hscore]
    unfold paddleBouncePoints
    intro h
    linarith

/-- C11 (amended) at the ball that reaches the paddle: the four tests hold, the step reverses
`ballDir.y` from 150 to -150 and the score goes from 0 to 20. -/
theorem C11_paddle_bounce_condition_witness :
    Reachable defaultConfig ballReachesPaddle
      ∧ updateGuard ballReachesPaddle
      ∧ (simulate defaultConfig (1 / 64) ballReachesPaddle).score
          = ballReachesPaddle.score
            + destroyBrickPoints * destroyedCells ballReachesPaddle.brickArray
                (simulate defaultConfig (1 / 64) ballReachesPaddle).brickArray
            + paddleBouncePoints
      ∧ (simulate defaultConfig (1 / 64) ballReachesPaddle).ballDirY
          = toShort (-1 * ballReachesPaddle.ballDirY)
      ∧ (simulate defaultConfig (1 / 64) ballReachesPaddle).score
          = ballReachesPaddle.score + paddleBouncePoints
      ∧ (simulate defaultConfig (1 / 64) ballReachesPaddle).brickArray
          = ballReachesPaddle.brickArray := by
  have hg : updateGuard ballReachesPaddle := by decide!
  have h := C11_paddle_bounce_condition defaultConfig (1 / 64) ballReachesPaddle hg
  have hc : ballReachesPaddle.ballDirY > 0
      ∧ INITIAL_PADDLE_Y ≤ ballReachesPaddle.ballY + BALL_DIAMETER / 2
      ∧ ballReachesPaddle.ballY + BALL_DIAMETER / 2 ≤ INITIAL_PADDLE_Y + PADDLE_HEIGHT
      ∧ ballReachesPaddle.paddleX ≤ ballReachesPaddle.ballX + BALL_DIAMETER / 2
      ∧ ballReachesPaddle.ballX ≤ ballReachesPaddle.paddleX + defaultConfig.paddleLength := by
    decide!
  obtain ⟨h1, h2, h3⟩ := h.2.1 hc
  exact ⟨ballReachesPaddle_reachable, hg, h.1.mpr hc, h1, h2, h3⟩

/-- The step of the witness in figures. -/
theorem ballReachesPaddle_step :
    (simulate defaultConfig (1 / 64) ballReachesPaddle).ballDirY = -150
      ∧ ballReachesPaddle.score = 0
      ∧ (simulate defaultConfig (1 / 64) ballReachesPaddle).score = 20 := by
  decide!

end Breakout
